import Mathlib

/-!
# Trivias STT web client (`src/whisperlivekit/web_trivias/app.js`)

A shallow embedding of the browser script: its module-level variables become the
fields of `State`, every function and event handler becomes a function on `State`,
and the browser (connection events, media callbacks, promise settlements, user
intent) is the list of `Event`s fed to `step`.

Conventions of the embedding.

* JavaScript strings are `String`; `trim` and the regex class `\s` use the
  ECMAScript whitespace set (`isJsWhitespace`).
* A DOM element looked up with `getElementById` is an `Option`: `none` when the
  page has no such element, which is what every `if (!element) return` guard tests.
  Only the text of an element is kept, CSS classes are not.
* Browser objects that outlive the variable holding them (sockets, recorders,
  workers, streams) live in per-kind lists indexed by creation order; the script
  variables hold indices into these lists.
* An `async` function is cut at its `await`s. An invocation of `startRecording`
  is an entry of `State.tasks` recording at which `await` it is suspended; the
  event that settles the awaited promise runs the next segment.
* Constructors of browser objects (`AudioContext`, `MediaRecorder`, `Worker`,
  `AudioWorkletNode`) are taken to succeed; the failures the script itself
  handles (WebSocket constructor, `getUserMedia`, `addModule`, connection error
  and close) are modelled.
-/

namespace WebTrivias

/-! ## JavaScript strings -/

/-- ECMAScript WhiteSpace and LineTerminator code points: what `String.prototype.trim`
strips and what the regex class `\s` matches. -/
def isJsWhitespace (c : Char) : Bool :=
  let n := c.toNat
  n == 9 || n == 10 || n == 11 || n == 12 || n == 13 || n == 32 || n == 160 ||
  n == 5760 || (8192 ≤ n && n ≤ 8202) || n == 8232 || n == 8233 || n == 8239 ||
  n == 8287 || n == 12288 || n == 65279

/-- Leading whitespace removed. -/
def trimStartChars (l : List Char) : List Char := l.dropWhile isJsWhitespace

/-- Trailing whitespace removed. -/
def trimEndChars (l : List Char) : List Char := (l.reverse.dropWhile isJsWhitespace).reverse

/-- Both ends trimmed, on the character list. -/
def trimChars (l : List Char) : List Char := trimEndChars (trimStartChars l)

/-- The method `String.prototype.trim`. -/
def jsTrim (s : String) : String := ⟨trimChars s.data⟩

/-- Truthiness of a string: every string but the empty one. -/
def jsTruthy (s : String) : Bool := !s.data.isEmpty

/-- The method `Array.prototype.join` on an array of strings. -/
def jsJoin (sep : String) : List String → String
  | [] => ""
  | [a] => a
  | a :: b :: rest => a ++ sep ++ jsJoin sep (b :: rest)

/-! ## Data received from the server -/

/-- One element of `lines`. `text` is `none` when the property is missing or `null`. -/
structure LineItem where
  text : Option String
deriving DecidableEq, Repr

/-- A transcript update. A property is `none` when it is absent or `null`; both cases
take the same branches of the script (an absent property gets the destructuring
default, a `null` one is falsy where it is used). Values of other JavaScript types are
outside this type. -/
structure TranscriptFragment where
  lines : Option (List LineItem)
  buffer_transcription : Option String
  buffer_translation : Option String
  status : Option String
deriving DecidableEq, Repr

/-- A message event: text that is not JSON, or the parsed object by its `type`. -/
inductive ServerMessage where
  | nonJson
  | config (useAudioWorklet : Bool)
  | ready_to_stop
  | transcript (data : TranscriptFragment)
deriving DecidableEq, Repr

/-! ## Browser objects -/

/-- The property `WebSocket.readyState`. -/
inductive ReadyState where
  | CONNECTING | OPEN | CLOSING | CLOSED
deriving DecidableEq, Repr

/-- The property `MediaRecorder.state`, with the interval between `stop()` and the last
`dataavailable` event it queues made explicit. -/
inductive RecorderState where
  | recording | flushing | inactive
deriving DecidableEq, Repr

/-- What an element shows: set through `textContent` or through `innerHTML`. -/
inductive Content where
  | textContent (s : String)
  | innerHTML (s : String)
deriving DecidableEq, Repr

/-- A binary websocket payload, as its bytes. -/
abbrev Payload := List Nat

/-- The empty blob `new Blob([], ...)` that `stopRecording` sends. -/
def emptyBlob : Payload := []

/-- The two capture variants: `AudioWorklet (PCM)` and `MediaRecorder (WebM)`. -/
inductive CaptureMode where
  | audioWorklet | mediaRecorder
deriving DecidableEq, Repr

/-- An entry of `enumerateDevices()`. -/
structure MediaDeviceInfo where
  kind : String
  deviceId : String
  groupId : String
  label : String
deriving DecidableEq, Repr

/-- An `option` element of the microphone dropdown. -/
structure SelectOption where
  value : String
  textContent : String
deriving DecidableEq, Repr

/-- The dropdown `micSelect`: its options and the value of the selected one. -/
structure SelectElement where
  options : List SelectOption
  value : String
deriving DecidableEq, Repr

/-- Where an invocation of `startRecording` is suspended. -/
inductive Phase where
  | awaitingSocket
  | awaitingMic
  | awaitingModule (stream : Nat)
  | finished
deriving DecidableEq, Repr

/-- What the browser offers to the script. -/
structure Platform where
  /-- True when `new WebSocket(url)` throws. -/
  webSocketThrows : Bool
  /-- True when `navigator.mediaDevices` exists. -/
  hasMediaDevices : Bool
  /-- True when `audioContext.audioWorklet` is defined. -/
  hasAudioWorklet : Bool
  /-- True when `navigator.permissions.query` exists. -/
  hasPermissions : Bool
deriving DecidableEq, Repr

/-- The property `PermissionStatus.state`. -/
inductive PermissionState where
  | granted | denied | prompt
deriving DecidableEq, Repr

/-- The text `perm.state.toUpperCase()`. -/
def PermissionState.upper : PermissionState → String
  | PermissionState.granted => "GRANTED"
  | PermissionState.denied => "DENIED"
  | PermissionState.prompt => "PROMPT"

/-! ## Program state -/

/-- The module-level variables of the script, the DOM elements it holds, the browser
objects it created, and logs of what it asked of the browser. -/
structure State where
  websocket : Option Nat
  isRecording : Bool
  serverUseAudioWorklet : Bool
  audioContext : Bool
  workletNode : Option Nat
  recorderWorker : Option Nat
  mediaRecorder : Option Nat
  mediaStream : Option Nat
  timerInterval : Bool
  lastFullTranscript : String
  configResolve : Option Nat
  waitingForStop : Bool
  userClosing : Bool
  availableMics : List MediaDeviceInfo
  selectedDeviceId : Option String
  recordButton : Option String
  liveTranscriptDiv : Option Content
  finalTranscriptDiv : Option Content
  connectionStatusSpan : Option String
  micStatusSpan : Option String
  modeStatusSpan : Option String
  asrStatusSpan : Option String
  timerSpan : Option String
  hintText : Option Content
  micSelect : Option SelectElement
  /-- Every `WebSocket` constructed so far, with its ready state. -/
  sockets : List ReadyState
  /-- Every `MediaRecorder` constructed so far. -/
  recorders : List RecorderState
  /-- Every recorder `Worker` constructed so far; `true` until terminated. -/
  workers : List Bool
  /-- Every `AudioWorkletNode` constructed so far; `true` while its port handler is set. -/
  workletNodes : List Bool
  /-- Every microphone stream obtained so far; `true` until its tracks are stopped. -/
  streams : List Bool
  /-- Every invocation of `startRecording` so far. -/
  tasks : List Phase
  /-- Calls of `refreshMicrophoneList` awaiting `enumerateDevices()`. -/
  pendingRefreshes : Nat
  /-- Log of `websocket.send`: the socket and the payload, oldest first. -/
  sent : List (Nat × Payload)
  /-- Log of `getUserMedia` calls: the exact device id asked for, if any. -/
  micRequests : List (Option String)
  /-- Log of the values of `useWorklet` computed in `startRecording`. -/
  modeLog : List CaptureMode
deriving DecidableEq, Repr

/-! ## Status helpers -/

/-- Assignment `el.textContent = text` guarded by `if (el)`. -/
def setText (el : Option String) (text : String) : Option String :=
  el.map (fun _ => text)

/-- The function `setConnectionStatus`. -/
def setConnectionStatus (s : State) (connected : Bool) : State :=
  { s with connectionStatusSpan :=
      setText s.connectionStatusSpan (if connected then "Verbonden" else "Niet verbonden") }

/-- The function `setMicStatus`. -/
def setMicStatus (s : State) (text : String) : State :=
  { s with micStatusSpan := setText s.micStatusSpan text }

/-- The function `setModeStatus`. -/
def setModeStatus (s : State) (text : String) : State :=
  { s with modeStatusSpan := setText s.modeStatusSpan text }

/-- The function `setAsrStatus`. -/
def setAsrStatus (s : State) (text : String) : State :=
  { s with asrStatusSpan := setText s.asrStatusSpan text }

/-- The function `updateRecordButtonUI`. -/
def updateRecordButtonUI (s : State) : State :=
  { s with recordButton :=
      setText s.recordButton (if s.isRecording then "⏹ Stop" else "🎙 Start") }

/-- The function `updateHint`. -/
def updateHint (s : State) : State :=
  { s with hintText := s.hintText.map (fun _ =>
      if !s.isRecording then
        Content.innerHTML ("Klik op <strong>Start</strong> om de microfoon te activeren " ++
          "en audio naar de server te sturen.")
      else Content.textContent "Spreek rustig in. De tekst verschijnt hier live.") }

/-- The function `startTimer`; the ticks themselves are not modelled. -/
def startTimer (s : State) : State :=
  match s.timerSpan with
  | none => s
  | some _ => { s with timerInterval := true }

/-- The function `resetTimer`. -/
def resetTimer (s : State) : State :=
  { s with timerInterval := false, timerSpan := setText s.timerSpan "00:00" }

/-! ## Transcript rendering -/

/-- The markup shown for status `no_audio_detected`. -/
def noAudioIndicator : Content :=
  Content.innerHTML
    "<em>Geen audio gedetecteerd. Probeer iets dichter bij de microfoon te spreken.</em>"

/-- The text shown while nothing has been transcribed. -/
def placeholderText : String := "Nog geen tekst ontvangen…"

/-- The filter predicate `(t) => t && t.trim().length > 0`. -/
def keepLine (t : String) : Bool := jsTruthy t && decide ((jsTrim t).length > 0)

/-- The local `base` of `renderTranscript`. -/
def baseText (lines : Option (List LineItem)) : String :=
  jsTrim (jsJoin "\n" (((lines.getD []).map (fun item => item.text.getD "")).filter keepLine))

/-- The local `liveText` of `renderTranscript`, after the buffer has been appended. -/
def liveText (lines : Option (List LineItem)) (bufferTranscription : Option String) : String :=
  let base := baseText lines
  match bufferTranscription with
  | none => base
  | some b =>
    if jsTruthy b && decide ((jsTrim b).length > 0) then
      (if jsTruthy base then base ++ " " else "") ++ jsTrim b
    else base

/-- The function `renderTranscript`. -/
def renderTranscript (s : State) (lines : Option (List LineItem))
    (bufferTranscription bufferTranslation : Option String) (status : String) : State :=
  match s.liveTranscriptDiv with
  | none => s
  | some _ =>
    if status = "no_audio_detected" then
      { s with liveTranscriptDiv := some noAudioIndicator }
    else
      let text := liveText lines bufferTranscription
      let s1 := { s with
        liveTranscriptDiv :=
          some (Content.textContent (if jsTruthy text then text else placeholderText)),
        lastFullTranscript := if jsTruthy text then text else s.lastFullTranscript }
      let s2 :=
        match bufferTranslation, s1.finalTranscriptDiv with
        | some tr, some _ =>
          if jsTruthy tr && decide ((jsTrim tr).length > 0) then
            { s1 with finalTranscriptDiv := some (Content.textContent (jsTrim tr)) }
          else s1
        | _, _ => s1
      setAsrStatus s2 "Live transcriptie actief…"

/-! ## Microphone catalog -/

/-- Case-insensitive match of a literal at the start of the input, as the regex flag `i`
does it for ASCII letters; the remainder of the input after the match. -/
def matchLiteralCI : List Char → List Char → Option (List Char)
  | [], rest => some rest
  | _ :: _, [] => none
  | p :: ps, c :: cs => if c.toUpper = p.toUpper then matchLiteralCI ps cs else none

/-- The replacement `.replace(/^word\s*-\s*/i, "")` on the characters of a label. -/
def stripLeadingWord (word : String) (label : List Char) : List Char :=
  match matchLiteralCI word.data label with
  | none => label
  | some rest =>
    match rest.dropWhile isJsWhitespace with
    | '-' :: rest2 => rest2.dropWhile isJsWhitespace
    | _ => label

/-- The helper `baseLabel` of `refreshMicrophoneList`. -/
def baseLabel (label : String) : String :=
  jsTrim ⟨stripLeadingWord "Communicatie" (stripLeadingWord "Standaard" label.data)⟩

/-- The key `dev.groupId || baseLabel(dev.label) || dev.deviceId`. -/
def dedupKey (dev : MediaDeviceInfo) : String :=
  if jsTruthy dev.groupId then dev.groupId
  else if jsTruthy (baseLabel dev.label) then baseLabel dev.label
  else dev.deviceId

/-- The loop filling the insertion-ordered map `byKey`. -/
def collectByKey (byKey : List (String × MediaDeviceInfo)) :
    List MediaDeviceInfo → List (String × MediaDeviceInfo)
  | [] => byKey
  | dev :: rest =>
    if byKey.any (fun e => e.1 == dedupKey dev) then collectByKey byKey rest
    else collectByKey (byKey ++ [(dedupKey dev, dev)]) rest

/-- The value assigned to `availableMics` for a given result of `enumerateDevices()`. -/
def dedupMics (devices : List MediaDeviceInfo) : List MediaDeviceInfo :=
  (collectByKey [] (devices.filter (fun d => d.kind == "audioinput"))).map (fun e => e.2)

/-- The loop that appends one option per microphone; `idx` numbers the unlabeled ones. -/
def micOptions (idx : Nat) : List MediaDeviceInfo → List SelectOption
  | [] => []
  | mic :: rest =>
    if jsTruthy (baseLabel mic.label) then
      ⟨mic.deviceId, baseLabel mic.label⟩ :: micOptions idx rest
    else ⟨mic.deviceId, "Microfoon " ++ toString idx⟩ :: micOptions (idx + 1) rest

/-- The start of `refreshMicrophoneList`, up to `await enumerateDevices()`. -/
def refreshMicrophoneList (p : Platform) (s : State) : State :=
  if !p.hasMediaDevices then s
  else { s with pendingRefreshes := s.pendingRefreshes + 1 }

/-- The rest of `refreshMicrophoneList`, run when `enumerateDevices()` resolves. -/
def refreshMicrophoneListResume (s : State) (devices : List MediaDeviceInfo) : State :=
  let s1 := { s with pendingRefreshes := s.pendingRefreshes - 1,
                     availableMics := dedupMics devices }
  match s1.micSelect with
  | none => s1
  | some sel =>
    let previous := sel.value
    let options := ⟨"", "Systeemstandaard"⟩ :: micOptions 1 s1.availableMics
    if jsTruthy previous && options.any (fun o => o.value == previous) then
      { s1 with micSelect := some ⟨options, previous⟩, selectedDeviceId := some previous }
    else
      { s1 with micSelect := some ⟨options, ""⟩, selectedDeviceId := none }

/-- The function `checkMicPermission`, up to `await navigator.permissions.query(...)`. -/
def checkMicPermission (p : Platform) (s : State) : State :=
  if !p.hasPermissions then refreshMicrophoneList p s else s

/-- The rest of `checkMicPermission` when the query resolves with a status in state
`st`; the `onchange` handler it installs has the same body. -/
def permissionResolved (p : Platform) (s : State) (st : PermissionState) : State :=
  let s1 := setMicStatus s st.upper
  if st = PermissionState.granted then refreshMicrophoneList p s1 else s1

/-- The `change` listener of `micSelect`, for the value the user picked. -/
def micSelectChange (s : State) (value : String) : State :=
  match s.micSelect with
  | none => s
  | some sel =>
    let s1 := { s with micSelect := some { sel with value := value },
                       selectedDeviceId := if jsTruthy value then some value else none }
    if s1.isRecording then
      setAsrStatus s1 "Nieuwe microfoon wordt gebruikt na stoppen en opnieuw starten."
    else s1

/-! ## Connection -/

/-- The socket `websocket` when `websocket && websocket.readyState === WebSocket.OPEN`. -/
def openSocket (s : State) : Option Nat :=
  match s.websocket with
  | none => none
  | some ws => if s.sockets[ws]? = some ReadyState.OPEN then some ws else none

/-- How the promise returned by `ensureWebSocket` stands when the call returns. -/
inductive Settled where
  | resolved | rejected | pending
deriving DecidableEq, Repr

/-- The function `ensureWebSocket`, called by invocation `task` of `startRecording`.
The `resolve` of the new promise is identified with the task that awaits it. -/
def ensureWebSocket (p : Platform) (s : State) (task : Nat) : State × Settled :=
  match openSocket s with
  | some _ => (s, Settled.resolved)
  | none =>
    let s1 := { s with configResolve := some task }
    if p.webSocketThrows then
      (setAsrStatus (setConnectionStatus s1 false) "WebSocket-verbinding mislukt.",
        Settled.rejected)
    else
      ({ s1 with websocket := some s1.sockets.length,
                 sockets := s1.sockets ++ [ReadyState.CONNECTING] }, Settled.pending)

/-- The `catch` block of `startRecording` that follows the microphone request. -/
def startRecordingCatch (s : State) (task : Nat) : State :=
  let s1 := setMicStatus s "Toegang geweigerd of fout"
  let s2 := setAsrStatus s1 "Kon microfoon niet gebruiken. Controleer permissies of apparaat."
  { s2 with tasks := s2.tasks.set task Phase.finished }

/-- The segment of `startRecording` from the end of `await ensureWebSocket()` to
`await getUserMedia(...)`. -/
def startRecordingAfterSocket (p : Platform) (s : State) (task : Nat) : State :=
  if p.hasMediaDevices then
    { s with micRequests := s.micRequests ++ [s.selectedDeviceId.filter jsTruthy],
             tasks := s.tasks.set task Phase.awaitingMic }
  else startRecordingCatch s task

/-- The end of `startRecording`, common to both capture variants. -/
def startRecordingTail (s : State) (task : Nat) : State :=
  let s1 := { s with liveTranscriptDiv :=
    s.liveTranscriptDiv.map (fun _ => Content.textContent "Luisteren… spreek nu.") }
  let s2 := setAsrStatus s1 "Opname bezig…"
  let s3 := { s2 with isRecording := true, userClosing := false, waitingForStop := false }
  let s4 := startTimer (updateHint (updateRecordButtonUI s3))
  { s4 with tasks := s4.tasks.set task Phase.finished }

/-- The segment of `startRecording` that runs when `getUserMedia` resolves: up to
`await addModule(...)` in the worklet variant, to the end in the recorder variant. -/
def startRecordingAfterMic (p : Platform) (s : State) (task : Nat) : State :=
  let stream := s.streams.length
  let s1 := { s with streams := s.streams ++ [true], mediaStream := some stream }
  let s2 := refreshMicrophoneList p (setMicStatus s1 "Toegang verleend")
  let s3 := { s2 with audioContext := true }
  let useWorklet := s3.serverUseAudioWorklet && p.hasAudioWorklet
  if useWorklet then
    { s3 with modeLog := s3.modeLog ++ [CaptureMode.audioWorklet],
              tasks := s3.tasks.set task (Phase.awaitingModule stream) }
  else
    let s4 := { s3 with modeLog := s3.modeLog ++ [CaptureMode.mediaRecorder],
                        mediaRecorder := some s3.recorders.length,
                        recorders := s3.recorders ++ [RecorderState.recording] }
    startRecordingTail (setModeStatus s4 "MediaRecorder (WebM)") task

/-- The segment of `startRecording` that runs when `addModule` resolves. -/
def startRecordingAfterModule (s : State) (task : Nat) : State :=
  let s1 := { s with workletNode := some s.workletNodes.length,
                     workletNodes := s.workletNodes ++ [true],
                     recorderWorker := some s.workers.length,
                     workers := s.workers ++ [true] }
  startRecordingTail (setModeStatus s1 "AudioWorklet (PCM)") task

/-- Calling a stored `resolve`: the invocation awaiting that promise continues. Calling
the `resolve` of a promise that is already settled does nothing. -/
def resolveConfig (p : Platform) (s : State) (task : Nat) : State :=
  if s.tasks[task]? = some Phase.awaitingSocket then startRecordingAfterSocket p s task
  else s

/-- The function `startRecording`, up to its first pending `await`. -/
def startRecording (p : Platform) (s : State) : State :=
  if s.isRecording then s
  else
    let task := s.tasks.length
    let s1 := { s with tasks := s.tasks ++ [Phase.awaitingSocket] }
    match ensureWebSocket p s1 task with
    | (s2, Settled.resolved) => startRecordingAfterSocket p s2 task
    | (s2, Settled.rejected) => { s2 with tasks := s2.tasks.set task Phase.finished }
    | (s2, Settled.pending) => s2

/-- The handler `websocket.onopen`. -/
def onopen (s : State) : State :=
  setAsrStatus (setConnectionStatus s true) "Verbonden met STT-server, wacht op audio…"

/-- The handler `websocket.onerror`. -/
def onerror (p : Platform) (s : State) : State :=
  let s1 := setAsrStatus (setConnectionStatus s false) "WebSocket-fout, controleer server."
  match s1.configResolve with
  | none => s1
  | some r => resolveConfig p { s1 with configResolve := none } r

/-- The handler `websocket.onclose`. -/
def onclose (s : State) : State :=
  let s1 := setConnectionStatus s false
  let s2 :=
    if s1.isRecording then updateHint (updateRecordButtonUI { s1 with isRecording := false })
    else s1
  { s2 with websocket := none }

/-- The handler `websocket.onmessage`. -/
def onmessage (p : Platform) (s : State) : ServerMessage → State
  | ServerMessage.nonJson => s
  | ServerMessage.config useAudioWorklet =>
    let s1 := { s with serverUseAudioWorklet := useAudioWorklet }
    let s2 := setModeStatus s1
      (if s1.serverUseAudioWorklet then "AudioWorklet (PCM)" else "MediaRecorder (WebM)")
    match s2.configResolve with
    | none => s2
    | some r => resolveConfig p { s2 with configResolve := none } r
  | ServerMessage.ready_to_stop =>
    let s1 := setAsrStatus { s with waitingForStop := false }
      "Verwerking voltooid. Gereed voor nieuwe opname."
    if jsTruthy s1.lastFullTranscript then
      { s1 with finalTranscriptDiv :=
          s1.finalTranscriptDiv.map (fun _ => Content.textContent s1.lastFullTranscript) }
    else s1
  | ServerMessage.transcript data =>
    renderTranscript s data.lines data.buffer_transcription data.buffer_translation
      (data.status.getD "active_transcription")

/-! ## Capture handlers and teardown -/

/-- The handler `recorderWorker.onmessage`. -/
def recorderWorkerOnmessage (s : State) (data : Payload) : State :=
  match openSocket s with
  | some ws => { s with sent := s.sent ++ [(ws, data)] }
  | none => s

/-- The handler `mediaRecorder.ondataavailable`. -/
def ondataavailable (s : State) (data : Payload) : State :=
  match openSocket s with
  | some ws => if data.length > 0 then { s with sent := s.sent ++ [(ws, data)] } else s
  | none => s

/-- The method `MediaRecorder.stop()`: a recording recorder queues its last
`dataavailable`; on an inactive one the call throws and the script ignores it. -/
def stopRecorder (recorders : List RecorderState) (r : Nat) : List RecorderState :=
  if recorders[r]? = some RecorderState.recording then recorders.set r RecorderState.flushing
  else recorders

/-- The function `cleanupAudio`. -/
def cleanupAudio (s : State) : State :=
  let s1 := match s.mediaRecorder with
    | some r => { s with recorders := stopRecorder s.recorders r, mediaRecorder := none }
    | none => s
  let s2 := match s1.recorderWorker with
    | some w => { s1 with workers := s1.workers.set w false, recorderWorker := none }
    | none => s1
  let s3 := match s2.workletNode with
    | some n => { s2 with workletNodes := s2.workletNodes.set n false, workletNode := none }
    | none => s2
  match s3.mediaStream with
  | some m => { s3 with streams := s3.streams.set m false, mediaStream := none }
  | none => s3

/-- The function `stopRecording`. -/
def stopRecording (s : State) : State :=
  if !s.isRecording then s
  else
    let s1 := { s with isRecording := false, userClosing := true, waitingForStop := true }
    let s2 := updateHint (updateRecordButtonUI (resetTimer (cleanupAudio s1)))
    match openSocket s2 with
    | some ws =>
      setAsrStatus { s2 with sent := s2.sent ++ [(ws, emptyBlob)] }
        "Opname gestopt. Server is audio aan het afronden…"
    | none => setAsrStatus s2 "Opname gestopt."

/-- The function `toggleRecording`. -/
def toggleRecording (p : Platform) (s : State) : State :=
  if s.isRecording then stopRecording s else startRecording p s

/-! ## Events -/

/-- What the browser can deliver to the script. Indices name the browser object or the
invocation of `startRecording` concerned. -/
inductive Event where
  | startRecording
  | stopRecording
  | toggleRecording
  | micSelectChange (value : String)
  | onopen (ws : Nat)
  | onerror (ws : Nat)
  | onclose (ws : Nat)
  | onmessage (ws : Nat) (msg : ServerMessage)
  | micGranted (task : Nat)
  | micDenied (task : Nat)
  | moduleLoaded (task : Nat)
  | moduleFailed (task : Nat)
  | workerMessage (worker : Nat) (data : Payload)
  | dataavailable (recorder : Nat) (data : Payload)
  | devicesEnumerated (devices : List MediaDeviceInfo)
  | enumerateFailed
  | permission (st : PermissionState)
  | permissionQueryFailed
deriving DecidableEq, Repr

/-- True for the events that deliver a `config` message. -/
def Event.isConfig : Event → Bool
  | Event.onmessage _ (ServerMessage.config _) => true
  | _ => false

/-- One event. An event the browser cannot deliver in the current state (an `open` for a
socket that is not connecting, a message from a terminated worker, the settlement of
a promise nobody awaits) leaves the state unchanged. -/
def step (p : Platform) (s : State) : Event → State
  | Event.startRecording => startRecording p s
  | Event.stopRecording => stopRecording s
  | Event.toggleRecording => toggleRecording p s
  | Event.micSelectChange value =>
    match s.micSelect with
    | some sel => if sel.options.any (fun o => o.value == value) then micSelectChange s value else s
    | none => s
  | Event.onopen ws =>
    if s.sockets[ws]? = some ReadyState.CONNECTING then
      onopen { s with sockets := s.sockets.set ws ReadyState.OPEN }
    else s
  | Event.onerror ws =>
    if ws < s.sockets.length ∧ s.sockets[ws]? ≠ some ReadyState.CLOSED then
      onerror p { s with sockets := s.sockets.set ws ReadyState.CLOSED }
    else s
  | Event.onclose ws =>
    if ws < s.sockets.length then
      onclose { s with sockets := s.sockets.set ws ReadyState.CLOSED }
    else s
  | Event.onmessage ws msg =>
    if s.sockets[ws]? = some ReadyState.OPEN then onmessage p s msg else s
  | Event.micGranted task =>
    if s.tasks[task]? = some Phase.awaitingMic then startRecordingAfterMic p s task else s
  | Event.micDenied task =>
    if s.tasks[task]? = some Phase.awaitingMic then startRecordingCatch s task else s
  | Event.moduleLoaded task =>
    match s.tasks[task]? with
    | some (Phase.awaitingModule _) => startRecordingAfterModule s task
    | _ => s
  | Event.moduleFailed task =>
    match s.tasks[task]? with
    | some (Phase.awaitingModule _) => startRecordingCatch s task
    | _ => s
  | Event.workerMessage worker data =>
    if s.workers[worker]? = some true then recorderWorkerOnmessage s data else s
  | Event.dataavailable recorder data =>
    match s.recorders[recorder]? with
    | some RecorderState.recording => ondataavailable s data
    | some RecorderState.flushing =>
      ondataavailable { s with recorders := s.recorders.set recorder RecorderState.inactive } data
    | _ => s
  | Event.devicesEnumerated devices =>
    if s.pendingRefreshes > 0 then refreshMicrophoneListResume s devices else s
  | Event.enumerateFailed =>
    if s.pendingRefreshes > 0 then { s with pendingRefreshes := s.pendingRefreshes - 1 } else s
  | Event.permission st =>
    if p.hasPermissions then permissionResolved p s st else s
  | Event.permissionQueryFailed =>
    if p.hasPermissions then refreshMicrophoneList p s else s

/-- A sequence of events, oldest first. -/
def run (p : Platform) (s : State) (events : List Event) : State :=
  events.foldl (step p) s

/-- The elements `getElementById` found when the script was loaded. -/
structure Page where
  recordButton : Bool
  liveTranscriptDiv : Bool
  finalTranscriptDiv : Bool
  connectionStatusSpan : Bool
  micStatusSpan : Bool
  modeStatusSpan : Bool
  asrStatusSpan : Bool
  timerSpan : Bool
  hintText : Bool
  micSelect : Bool
deriving DecidableEq, Repr

/-- An element that is present, with nothing written to it yet. -/
def present {α : Type} (b : Bool) (a : α) : Option α := if b then some a else none

/-- The state once the script has run to its last line: the variable initialisers, then
`checkMicPermission(); updateRecordButtonUI(); updateHint(); setConnectionStatus(false);
setAsrStatus("Wachten op opname…")`. -/
def initialState (p : Platform) (page : Page) : State :=
  let s0 : State := {
    websocket := none, isRecording := false, serverUseAudioWorklet := true,
    audioContext := false, workletNode := none, recorderWorker := none,
    mediaRecorder := none, mediaStream := none, timerInterval := false,
    lastFullTranscript := "", configResolve := none, waitingForStop := false,
    userClosing := false, availableMics := [], selectedDeviceId := none,
    recordButton := present page.recordButton "",
    liveTranscriptDiv := present page.liveTranscriptDiv (Content.textContent ""),
    finalTranscriptDiv := present page.finalTranscriptDiv (Content.textContent ""),
    connectionStatusSpan := present page.connectionStatusSpan "",
    micStatusSpan := present page.micStatusSpan "",
    modeStatusSpan := present page.modeStatusSpan "",
    asrStatusSpan := present page.asrStatusSpan "",
    timerSpan := present page.timerSpan "",
    hintText := present page.hintText (Content.textContent ""),
    micSelect := present page.micSelect ⟨[], ""⟩,
    sockets := [], recorders := [], workers := [], workletNodes := [], streams := [],
    tasks := [], pendingRefreshes := 0, sent := [], micRequests := [], modeLog := [] }
  setAsrStatus
    (setConnectionStatus (updateHint (updateRecordButtonUI (checkMicPermission p s0))) false)
    "Wachten op opname…"

/-- A page with every element the script looks up. -/
def fullPage : Page :=
  ⟨true, true, true, true, true, true, true, true, true, true⟩

/-- A browser with media devices, the permissions interface and the worklet front-end. -/
def workletBrowser : Platform := ⟨false, true, true, true⟩

/-- A browser with media devices and the permissions interface, without the worklet
front-end. -/
def plainBrowser : Platform := ⟨false, true, false, true⟩

/-! ## Scenarios -/

/-- A freshly loaded full page in `plainBrowser`. -/
def freshPage : State := initialState plainBrowser fullPage

/-- A freshly loaded full page in `workletBrowser`. -/
def freshWorkletPage : State := initialState workletBrowser fullPage

/-- Events that bring a fresh page to a running `MediaRecorder` capture: the user starts,
the socket opens, the server announces `useAudioWorklet: false`, the microphone is
granted. -/
def recordingEvents : List Event :=
  [Event.startRecording, Event.onopen 0, Event.onmessage 0 (ServerMessage.config false),
   Event.micGranted 0]

/-- The state while capture runs in the recorder variant and the socket is open. -/
def recordingState : State := run plainBrowser freshPage recordingEvents

/-- The state while capture runs in the worklet variant and the socket is open. -/
def workletRecordingState : State :=
  run workletBrowser freshWorkletPage
    [Event.startRecording, Event.onopen 0, Event.onmessage 0 (ServerMessage.config true),
     Event.micGranted 0, Event.moduleLoaded 0]

/-- The state after `stopRecording` while the server has not yet sent `ready_to_stop`. -/
def stoppingState : State := step plainBrowser recordingState Event.stopRecording

/-- The state after the first `startRecording` of a fresh page: the socket is connecting
and the call awaits the promise of `ensureWebSocket`. -/
def connectingState : State := step plainBrowser freshPage Event.startRecording

/-- The state once that socket has opened, before any `config` message. -/
def awaitingConfigState : State := step plainBrowser connectingState (Event.onopen 0)

/-- A run in which the connection fails before any `config` message: the socket reports
an error and closes, then the microphone is granted and the worklet module loads. -/
def errorBeforeConfigEvents : List Event :=
  [Event.startRecording, Event.onerror 0, Event.onclose 0, Event.micGranted 0,
   Event.moduleLoaded 0]

/-- A run in which `startRecording` is invoked a second time while the first invocation
awaits the microphone, with no `stopRecording` anywhere. -/
def doubleStartEvents : List Event :=
  [Event.startRecording, Event.onopen 0, Event.onmessage 0 (ServerMessage.config false),
   Event.startRecording, Event.micGranted 0, Event.micGranted 1]

/-- A run in which `startRecording` is invoked a second time while the first socket is
still connecting; then both sockets open and both deliver `config`. -/
def doubleConnectEvents : List Event :=
  [Event.startRecording, Event.startRecording, Event.onopen 0, Event.onopen 1,
   Event.onmessage 0 (ServerMessage.config false),
   Event.onmessage 1 (ServerMessage.config false)]

/-- A run in which `startRecording` is invoked a second time while the first socket is
still connecting; then both sockets fail: each reports an error and closes. -/
def doubleConnectErrorEvents : List Event :=
  [Event.startRecording, Event.startRecording, Event.onerror 0, Event.onclose 0,
   Event.onerror 1, Event.onclose 1]

/-- The variant `startRecording` selects in a browser when the server flag still has its
initial value. -/
def defaultMode (p : Platform) : CaptureMode :=
  if p.hasAudioWorklet then CaptureMode.audioWorklet else CaptureMode.mediaRecorder

/-- What holds of a state as long as no `config` message has been handled: the server
flag has its initial value and every variant selected so far is the default one. -/
def NoConfigYet (p : Platform) (s : State) : Prop :=
  s.serverUseAudioWorklet = true ∧ ∀ m ∈ s.modeLog, m = defaultMode p

/-- The number of recorders and recorder workers constructed so far. Every start of the
capture pipeline constructs one of the two, and nothing else does. -/
def pipelinesStarted (s : State) : Nat := s.recorders.length + s.workers.length

/-- The session is idle: not capturing and not awaiting a stop acknowledgment. -/
def Idle (s : State) : Prop := s.isRecording = false ∧ s.waitingForStop = false

/-! ## The merge rule in the words of the specification -/

/-- An entry that is empty or whitespace-only. -/
def isBlank (t : String) : Bool := t.data.all isJsWhitespace

/-- Two parts put together with exactly one space between them when both are non-empty,
and with no separator when either is empty. -/
def spaceJoin (a b : String) : String :=
  if a = "" ∨ b = "" then a ++ b else a ++ " " ++ b

/-- The texts of the finalized lines that are not empty or whitespace-only. -/
def finalizedTexts (lines : Option (List LineItem)) : List String :=
  ((lines.getD []).map (fun item => item.text.getD "")).filter (fun t => !isBlank t)

/-- The assembled text as the merge rule words it: the kept lines joined by a newline,
then the live buffer trimmed, one space between the two parts. -/
def assembledAsWorded (f : TranscriptFragment) : String :=
  spaceJoin (jsJoin "\n" (finalizedTexts f.lines)) (jsTrim (f.buffer_transcription.getD ""))

/-- The merge rule with the joined lines trimmed of surrounding whitespace as well. -/
def assembledText (f : TranscriptFragment) : String :=
  spaceJoin (jsTrim (jsJoin "\n" (finalizedTexts f.lines)))
    (jsTrim (f.buffer_transcription.getD ""))

/-- What the live transcript element shows for an assembled text. -/
def shownText (text : String) : Content :=
  Content.textContent (if text = "" then placeholderText else text)

/-- The status `renderTranscript` receives for a fragment. -/
def statusOf (f : TranscriptFragment) : String := f.status.getD "active_transcription"

/-- Rendering of one fragment, as the last lines of `websocket.onmessage` do it. -/
def renderFragment (s : State) (f : TranscriptFragment) : State :=
  renderTranscript s f.lines f.buffer_transcription f.buffer_translation (statusOf f)

/-- Fragment `b` extends fragment `a`: the finalized lines of `a` are the first lines
of `b`. -/
def Extends (a b : TranscriptFragment) : Prop := a.lines.getD [] <+: b.lines.getD []

/-- A fragment with one finalized line and no live buffer. -/
def oneLineFragment (text : String) : TranscriptFragment :=
  ⟨some [⟨some text⟩], none, none, some "active_transcription"⟩

instance : IsTrans TranscriptFragment Extends :=
  ⟨fun _ _ _ h1 h2 => List.IsPrefix.trans h1 h2⟩

/-- An earlier fragment whose only finalized line starts with a space. -/
def earlyFragment : TranscriptFragment :=
  ⟨some [⟨some " hi"⟩], none, none, some "active_transcription"⟩

/-- A later fragment that extends `earlyFragment` by one line. -/
def lateFragment : TranscriptFragment :=
  ⟨some [⟨some " hi"⟩, ⟨some "there"⟩], none, none, some "active_transcription"⟩

/-! ## The catalog in the words of the specification -/

/-- A label without a leading tag. The tag is `word` in any letter case, followed by
optional whitespace, a hyphen and optional whitespace; a label that does not start with
the tag is kept as it is. -/
def withoutTag (word : String) (label : List Char) : List Char :=
  let rest := (label.drop word.length).dropWhile isJsWhitespace
  if (label.take word.length).map Char.toUpper = word.data.map Char.toUpper
      ∧ rest.head? = some '-' then
    (rest.drop 1).dropWhile isJsWhitespace
  else label

/-- The normalized label: the tag `Standaard -` and then the tag `Communicatie -` taken
off the front, and the result trimmed of surrounding whitespace. -/
def normalizedLabel (label : String) : String :=
  jsTrim ⟨withoutTag "Communicatie" (withoutTag "Standaard" label.data)⟩

/-- The dedup key in the words of the specification: the group id when present, else
the normalized label when there is one, else the device id. A string is present when
it is not empty. -/
def specKey (d : MediaDeviceInfo) : String :=
  if d.groupId ≠ "" then d.groupId
  else if normalizedLabel d.label ≠ "" then normalizedLabel d.label
  else d.deviceId

/-- The entries of a device list that are the first occurrence of their dedup key, in
list order: entry `i` is kept when no entry before it has the same key. -/
def firstOccurrences (l : List MediaDeviceInfo) : List MediaDeviceInfo :=
  (List.range l.length).filterMap (fun i =>
    match l[i]? with
    | some d => if (l.take i).any (fun e => specKey e == specKey d) then none else some d
    | none => none)

/-- The audio-input entries of an enumeration. -/
def audioInputs (devices : List MediaDeviceInfo) : List MediaDeviceInfo :=
  devices.filter (fun d => d.kind == "audioinput")

/-- As `firstOccurrences`, for a list that follows the entries `seen`. -/
def firstOccurrencesAfter (seen l : List MediaDeviceInfo) : List MediaDeviceInfo :=
  (List.range l.length).filterMap (fun i =>
    match l[i]? with
    | some d =>
      if (seen ++ l.take i).any (fun e => dedupKey e == dedupKey d) then none else some d
    | none => none)

/-! ## Facts about strings -/

theorem trimChars_eq_nil_iff (l : List Char) :
    trimChars l = [] ↔ ∀ c ∈ l, isJsWhitespace c = true := by
  unfold trimChars trimEndChars trimStartChars
  rw [List.reverse_eq_nil_iff, List.dropWhile_eq_nil_iff]
  constructor
  · intro h
    by_contra hne
    have hd : l.dropWhile isJsWhitespace ≠ [] := by
      rwa [Ne, List.dropWhile_eq_nil_iff]
    have h1 := List.head_dropWhile_not isJsWhitespace l hd
    have h2 := h _ (List.mem_reverse.mpr (List.head_mem hd))
    simp [h2] at h1
  · intro h c hc
    rw [List.dropWhile_eq_nil_iff.mpr h] at hc
    simp at hc

theorem isBlank_iff (t : String) : isBlank t = true ↔ trimChars t.data = [] := by
  rw [trimChars_eq_nil_iff]
  simp [isBlank, List.all_eq_true]

theorem jsTruthy_iff (t : String) : jsTruthy t = true ↔ t ≠ "" := by
  cases t with
  | mk l => cases l <;> simp [jsTruthy, String.ext_iff]

theorem jsTrim_truthy (t : String) :
    (jsTruthy t && decide ((jsTrim t).length > 0)) = !isBlank t := by
  by_cases h : isBlank t = true
  · have h1 := (isBlank_iff t).mp h
    simp [h, jsTrim, h1]
  · have h1 : trimChars t.data ≠ [] := fun e => h ((isBlank_iff t).mpr e)
    have h2 : jsTruthy t = true := by
      cases t with
      | mk l =>
        cases l with
        | nil => exact absurd rfl h1
        | cons a l => rfl
    have h3 : 0 < (trimChars t.data).length := List.length_pos.mpr h1
    simp [h, jsTrim, h2, h3]

theorem jsTrim_eq_empty_iff (t : String) : jsTrim t = "" ↔ isBlank t = true := by
  rw [isBlank_iff]
  simp [jsTrim, String.ext_iff]

theorem keepLine_eq (t : String) : keepLine t = !isBlank t := jsTrim_truthy t

theorem baseText_eq (lines : Option (List LineItem)) :
    baseText lines = jsTrim (jsJoin "\n" (finalizedTexts lines)) := by
  unfold baseText finalizedTexts
  have h : keepLine = fun t => !isBlank t := funext keepLine_eq
  rw [h]

theorem liveText_eq (f : TranscriptFragment) :
    liveText f.lines f.buffer_transcription = assembledText f := by
  unfold liveText assembledText spaceJoin
  rw [← baseText_eq]
  cases hb : f.buffer_transcription with
  | none =>
    have h0 : jsTrim "" = "" := by decide
    simp [h0]
  | some b =>
    simp only [Option.getD_some, jsTrim_truthy]
    by_cases hblank : isBlank b = true
    · have h1 := (jsTrim_eq_empty_iff b).mpr hblank
      simp [hblank, h1]
    · have h1 : jsTrim b ≠ "" := fun e => hblank ((jsTrim_eq_empty_iff b).mp e)
      by_cases hbase : baseText f.lines = ""
      · have h2 : jsTruthy "" = false := by decide
        simp [hblank, hbase, h2]
      · have h2 : jsTruthy (baseText f.lines) = true := (jsTruthy_iff _).mpr hbase
        simp [hblank, hbase, h1, h2]

theorem dropWhile_keeps_infix {α : Type} (p : α → Bool) (a t b : List α)
    (h : ∃ c ∈ t, p c = false) :
    ∃ a', (a ++ t ++ b).dropWhile p = a' ++ t.dropWhile p ++ b := by
  induction a with
  | nil =>
    refine ⟨[], ?_⟩
    have hne : t.dropWhile p ≠ [] := by
      rw [Ne, List.dropWhile_eq_nil_iff]
      obtain ⟨c, hc, hpc⟩ := h
      intro hall
      simp [hall c hc] at hpc
    rw [List.nil_append, List.dropWhile_append]
    cases hd : t.dropWhile p with
    | nil => exact absurd hd hne
    | cons x xs => simp
  | cons x a ih =>
    by_cases hx : p x = true
    · obtain ⟨a', ha'⟩ := ih
      refine ⟨a', ?_⟩
      simpa [List.dropWhile_cons, hx] using ha'
    · refine ⟨x :: a ++ t.takeWhile p, ?_⟩
      simp [List.dropWhile_cons, hx, List.append_assoc]

theorem mem_dropWhile_of_not {α : Type} (p : α → Bool) (t : List α) (c : α) (hc : c ∈ t)
    (hpc : p c = false) : c ∈ t.dropWhile p := by
  have h := List.takeWhile_append_dropWhile p t
  rw [← h] at hc
  rcases List.mem_append.mp hc with h1 | h1
  · have := List.mem_takeWhile_imp h1
    simp [hpc] at this
  · exact h1

theorem trimChars_infix (a t b : List Char) (h : ∃ c ∈ t, isJsWhitespace c = false) :
    trimChars t <:+: trimChars (a ++ t ++ b) := by
  obtain ⟨c, hc, hpc⟩ := h
  obtain ⟨a', ha'⟩ := dropWhile_keeps_infix isJsWhitespace a t b ⟨c, hc, hpc⟩
  have hc1 : c ∈ (t.dropWhile isJsWhitespace).reverse :=
    List.mem_reverse.mpr (mem_dropWhile_of_not isJsWhitespace t c hc hpc)
  obtain ⟨b', hb'⟩ := dropWhile_keeps_infix isJsWhitespace b.reverse
    (t.dropWhile isJsWhitespace).reverse a'.reverse ⟨c, hc1, hpc⟩
  refine ⟨a', b'.reverse, ?_⟩
  unfold trimChars trimEndChars trimStartChars
  rw [ha']
  have hrev : (a' ++ List.dropWhile isJsWhitespace t ++ b).reverse
      = b.reverse ++ (List.dropWhile isJsWhitespace t).reverse ++ a'.reverse := by
    simp [List.append_assoc]
  rw [hrev, hb']
  simp [List.append_assoc]

theorem not_blank_exists (t : String) (h : isBlank t = false) :
    ∃ c ∈ t.data, isJsWhitespace c = false := by
  unfold isBlank at h
  by_contra hne
  have hall : ∀ c ∈ t.data, isJsWhitespace c = true := by
    intro c hc
    by_contra hcw
    exact hne ⟨c, hc, by simpa using hcw⟩
  rw [List.all_eq_true.mpr hall] at h
  exact Bool.noConfusion h

theorem mem_jsJoin_infix (sep : String) (l : List String) (t : String) (h : t ∈ l) :
    t.data <:+: (jsJoin sep l).data := by
  induction l with
  | nil => simp at h
  | cons a rest ih =>
    cases rest with
    | nil =>
      have : t = a := by simpa using h
      subst this
      exact List.infix_refl _
    | cons b rest =>
      rcases List.mem_cons.mp h with h1 | h1
      · subst h1
        refine ⟨[], sep.data ++ (jsJoin sep (b :: rest)).data, ?_⟩
        simp [jsJoin, List.append_assoc]
      · obtain ⟨x, y, hxy⟩ := ih h1
        refine ⟨a.data ++ sep.data ++ x, y, ?_⟩
        simp only [jsJoin, String.data_append]
        rw [← hxy]
        simp [List.append_assoc]

theorem spaceJoin_starts_with (a b : String) : a.data <+: (spaceJoin a b).data := by
  unfold spaceJoin
  split
  · exact ⟨b.data, by simp⟩
  · exact ⟨" ".data ++ b.data, by simp [List.append_assoc]⟩

theorem trimmed_line_in_assembled (f : TranscriptFragment) (item : LineItem)
    (hmem : item ∈ f.lines.getD []) (hblank : isBlank (item.text.getD "") = false) :
    (jsTrim (item.text.getD "")).data <:+: (assembledText f).data := by
  have h1 : item.text.getD "" ∈ finalizedTexts f.lines := by
    unfold finalizedTexts
    rw [List.mem_filter]
    exact ⟨List.mem_map.mpr ⟨item, hmem, rfl⟩, by simp [hblank]⟩
  obtain ⟨x, y, hxy⟩ := mem_jsJoin_infix "\n" _ _ h1
  have h2 := trimChars_infix x (item.text.getD "").data y (not_blank_exists _ hblank)
  rw [hxy] at h2
  exact List.IsInfix.trans h2 (spaceJoin_starts_with _ _).isInfix

theorem renderTranscript_shows (s : State) (f : TranscriptFragment) (status : String)
    (hstatus : status ≠ "no_audio_detected") :
    (renderTranscript s f.lines f.buffer_transcription f.buffer_translation
        status).liveTranscriptDiv
      = s.liveTranscriptDiv.map (fun _ => shownText (assembledText f)) := by
  unfold renderTranscript
  cases hdiv : s.liveTranscriptDiv with
  | none => simp [hdiv]
  | some c =>
    simp only [hstatus, if_false, liveText_eq, Option.map_some']
    generalize assembledText f = T
    by_cases he : T = ""
    · subst he
      have hf : jsTruthy "" = false := by decide
      split <;> (try split) <;> simp_all [setAsrStatus, shownText]
    · have hf : jsTruthy T = true := (jsTruthy_iff T).mpr he
      split <;> (try split) <;> simp [setAsrStatus, shownText, he, hf]

theorem renderTranscript_remembers (s : State) (f : TranscriptFragment) (status : String)
    (hstatus : status ≠ "no_audio_detected") (hdiv : s.liveTranscriptDiv.isSome = true) :
    (renderTranscript s f.lines f.buffer_transcription f.buffer_translation
        status).lastFullTranscript
      = if assembledText f = "" then s.lastFullTranscript else assembledText f := by
  unfold renderTranscript
  cases hd : s.liveTranscriptDiv with
  | none => simp [hd] at hdiv
  | some c =>
    simp only [hstatus, if_false, liveText_eq]
    generalize assembledText f = T
    by_cases he : T = ""
    · subst he
      have hf : jsTruthy "" = false := by decide
      split <;> (try split) <;> simp_all [setAsrStatus]
    · have hf : jsTruthy T = true := (jsTruthy_iff T).mpr he
      split <;> (try split) <;> simp [setAsrStatus, he, hf]

/-! ## Transcript rendering: the claims -/

/-- C1, as amended. For a status other than `no_audio_detected`, the live transcript
element shows the non-blank finalized line texts joined by a newline and then trimmed
of surrounding whitespace, followed by the trimmed live buffer, with one space between
the two parts when both are non-empty and no separator otherwise; when that text is
empty the element shows the placeholder and `lastFullTranscript` keeps its value,
otherwise `lastFullTranscript` becomes that text. -/
theorem renderTranscript_assembles_trimmed (s : State) (f : TranscriptFragment)
    (status : String) (hstatus : status ≠ "no_audio_detected") :
    (renderTranscript s f.lines f.buffer_transcription f.buffer_translation
        status).liveTranscriptDiv
      = s.liveTranscriptDiv.map (fun _ => shownText (assembledText f))
    ∧ (s.liveTranscriptDiv.isSome = true →
        (renderTranscript s f.lines f.buffer_transcription f.buffer_translation
            status).lastFullTranscript
          = if assembledText f = "" then s.lastFullTranscript else assembledText f) :=
  ⟨renderTranscript_shows s f status hstatus, renderTranscript_remembers s f status hstatus⟩

/-- C1, the example of the claim through the theorem: lines `[hello]` with live buffer
`wor` are shown as `hello wor`. -/
theorem renderTranscript_assembles_trimmed_witness :
    (renderTranscript freshPage (some [⟨some "hello"⟩]) (some "wor") none
        "active_transcription").liveTranscriptDiv
      = some (Content.textContent "hello wor") :=
  (renderTranscript_assembles_trimmed freshPage
    ⟨some [⟨some "hello"⟩], some "wor", none, some "active_transcription"⟩
    "active_transcription" (by decide)).1.trans (by decide)

/-- C1, counterexample to the claim as worded. For the single line ` hello` and no live
buffer the worded rule gives ` hello`, with its leading space, and `renderTranscript`
shows `hello`. -/
theorem renderTranscript_differs_from_worded_rule :
    assembledAsWorded (oneLineFragment " hello") = " hello"
    ∧ (renderFragment freshPage (oneLineFragment " hello")).liveTranscriptDiv
        = some (Content.textContent "hello") := by
  decide

/-- C10. For status `no_audio_detected`, whatever the lines and the two buffers are,
`renderTranscript` changes nothing but the live transcript element, which receives the
fixed no-audio indicator. -/
theorem renderTranscript_no_audio_indicator (s : State) (lines : Option (List LineItem))
    (bufferTranscription bufferTranslation : Option String) :
    renderTranscript s lines bufferTranscription bufferTranslation "no_audio_detected"
      = { s with liveTranscriptDiv := s.liveTranscriptDiv.map (fun _ => noAudioIndicator) } := by
  unfold renderTranscript
  cases hdiv : s.liveTranscriptDiv with
  | none =>
    cases s
    simp_all
  | some c => simp

/-- C9, as amended. In a sequence of fragments in which each one extends the finalized
lines of the one before, take a non-blank finalized line of an earlier fragment and a
later fragment whose status is not `no_audio_detected`: the text of that line, trimmed of
surrounding whitespace, is a contiguous part of the text `renderTranscript` shows for
the later fragment. -/
theorem finalized_text_stays_rendered (s : State) (frags : List TranscriptFragment)
    (hchain : frags.Chain' Extends) (i j : Nat) (hij : i < j)
    (early late : TranscriptFragment)
    (hi : frags[i]? = some early) (hj : frags[j]? = some late)
    (hactive : statusOf late ≠ "no_audio_detected")
    (item : LineItem) (hitem : item ∈ early.lines.getD [])
    (hblank : isBlank (item.text.getD "") = false) :
    ∃ text : String,
      (renderFragment s late).liveTranscriptDiv
          = s.liveTranscriptDiv.map (fun _ => Content.textContent text)
      ∧ (jsTrim (item.text.getD "")).data <:+: text.data := by
  have hp : frags.Pairwise Extends := List.chain'_iff_pairwise.mp hchain
  obtain ⟨hi1, hi2⟩ := List.getElem?_eq_some.mp hi
  obtain ⟨hj1, hj2⟩ := List.getElem?_eq_some.mp hj
  have hext : Extends early late := by
    have := List.pairwise_iff_getElem.mp hp i j hi1 hj1 hij
    rwa [hi2, hj2] at this
  have hmem : item ∈ late.lines.getD [] := List.IsPrefix.mem hitem hext
  have hin := trimmed_line_in_assembled late item hmem hblank
  refine ⟨assembledText late, ?_, hin⟩
  have hne : assembledText late ≠ "" := by
    intro he
    rw [he] at hin
    have h1 : (jsTrim (item.text.getD "")).data = [] := by simpa using hin
    have h2 : jsTrim (item.text.getD "") = "" := String.ext h1
    rw [(jsTrim_eq_empty_iff _).mp h2] at hblank
    exact Bool.noConfusion hblank
  unfold renderFragment
  rw [renderTranscript_shows s late _ hactive]
  simp [shownText, hne]

/-- C9, the amended claim at a two-fragment sequence: `hello`, finalized in the first
fragment, is part of what is shown for the second. -/
theorem finalized_text_stays_rendered_witness :
    ∃ text : String,
      (renderFragment freshPage
          ⟨some [⟨some "hello"⟩, ⟨some "world"⟩], some "wor", none, none⟩).liveTranscriptDiv
          = freshPage.liveTranscriptDiv.map (fun _ => Content.textContent text)
      ∧ (jsTrim ((⟨some "hello"⟩ : LineItem).text.getD "")).data <:+: text.data :=
  finalized_text_stays_rendered freshPage
    [⟨some [⟨some "hello"⟩], none, none, none⟩,
     ⟨some [⟨some "hello"⟩, ⟨some "world"⟩], some "wor", none, none⟩]
    (by simp [Extends]) 0 1 (by decide) _ _ rfl rfl (by decide) ⟨some "hello"⟩
    (by simp) (by decide)

/-- C9, counterexample to the claim as worded. The line ` hi` is finalized in
`earlyFragment`, `lateFragment` extends it, and the text shown for `lateFragment` is
`hi`, newline, `there`, in which ` hi` with its leading space does not occur. -/
theorem finalized_text_with_outer_space_not_rendered :
    Extends earlyFragment lateFragment
    ∧ (⟨some " hi"⟩ : LineItem) ∈ earlyFragment.lines.getD []
    ∧ isBlank " hi" = false
    ∧ (renderFragment freshPage lateFragment).liveTranscriptDiv
        = some (Content.textContent "hi\nthere")
    ∧ ¬ (" hi".data <:+: "hi\nthere".data) := by
  refine ⟨?_, ?_, ?_, ?_, ?_⟩
  · unfold Extends; decide
  · decide
  · decide
  · decide
  · decide

/-! ## Microphone catalog: the claim -/

theorem firstOccurrencesAfter_nil (seen : List MediaDeviceInfo) :
    firstOccurrencesAfter seen [] = [] := by
  simp [firstOccurrencesAfter]

theorem firstOccurrencesAfter_cons (seen : List MediaDeviceInfo) (d : MediaDeviceInfo)
    (r : List MediaDeviceInfo) :
    firstOccurrencesAfter seen (d :: r)
      = (if seen.any (fun e => dedupKey e == dedupKey d) then [] else [d])
        ++ firstOccurrencesAfter (seen ++ [d]) r := by
  unfold firstOccurrencesAfter
  rw [List.length_cons, List.range_succ_eq_map, List.filterMap_cons, List.filterMap_map]
  have htail : (fun i => match (d :: r)[i]? with
        | some d_1 =>
          if (seen ++ List.take i (d :: r)).any (fun e => dedupKey e == dedupKey d_1) = true
          then none else some d_1
        | none => none) ∘ Nat.succ
      = (fun i => match r[i]? with
        | some d_1 =>
          if (seen ++ [d] ++ List.take i r).any (fun e => dedupKey e == dedupKey d_1) = true
          then none else some d_1
        | none => none) := by
    funext i
    simp [List.append_assoc]
  rw [htail]
  by_cases h : seen.any (fun e => dedupKey e == dedupKey d) = true
  · simp [h]
  · simp [h]

theorem matchLiteralCI_eq (pat : List Char) :
    ∀ label : List Char, matchLiteralCI pat label
      = if (label.take pat.length).map Char.toUpper = pat.map Char.toUpper
        then some (label.drop pat.length) else none := by
  induction pat with
  | nil => intro label; simp [matchLiteralCI]
  | cons p ps ih =>
    intro label
    cases label with
    | nil => simp [matchLiteralCI]
    | cons c cs =>
      rw [matchLiteralCI, ih cs]
      by_cases hc : c.toUpper = p.toUpper
      · simp [hc]
      · simp [hc]

theorem stripLeadingWord_eq (word : String) (label : List Char) :
    stripLeadingWord word label = withoutTag word label := by
  obtain ⟨pat⟩ := word
  unfold stripLeadingWord withoutTag
  rw [matchLiteralCI_eq]
  simp only [String.length_mk]
  by_cases hw : (label.take pat.length).map Char.toUpper = pat.map Char.toUpper
  · rw [if_pos hw]
    simp only []
    generalize (label.drop pat.length).dropWhile isJsWhitespace = r
    cases r with
    | nil => simp
    | cons x xs =>
      by_cases hx : x = '-'
      · subst hx
        simp [hw]
      · have hne : ¬ ((label.take pat.length).map Char.toUpper = pat.map Char.toUpper
            ∧ (x :: xs).head? = some '-') := by
          intro h
          exact hx (by simpa using h.2)
        rw [if_neg hne]
        split
        · rename_i rest2 heq
          exact absurd (List.cons.inj heq).1 hx
        · rfl
  · rw [if_neg hw, if_neg (fun h => hw h.1)]

theorem baseLabel_eq (label : String) : baseLabel label = normalizedLabel label := by
  unfold baseLabel normalizedLabel
  rw [stripLeadingWord_eq, stripLeadingWord_eq]

theorem dedupKey_eq (d : MediaDeviceInfo) : dedupKey d = specKey d := by
  unfold dedupKey specKey
  rw [baseLabel_eq]
  simp only [jsTruthy_iff]

theorem firstOccurrences_eq (l : List MediaDeviceInfo) :
    firstOccurrences l = firstOccurrencesAfter [] l := by
  simp [firstOccurrences, firstOccurrencesAfter, dedupKey_eq]

theorem collectByKey_map (l : List MediaDeviceInfo) :
    ∀ (byKey : List (String × MediaDeviceInfo)) (seen : List MediaDeviceInfo),
      (∀ k : String, byKey.any (fun e => e.1 == k) = seen.any (fun e => dedupKey e == k)) →
      (collectByKey byKey l).map (fun e => e.2)
        = byKey.map (fun e => e.2) ++ firstOccurrencesAfter seen l := by
  induction l with
  | nil =>
    intro byKey seen _
    simp [collectByKey, firstOccurrencesAfter_nil]
  | cons d r ih =>
    intro byKey seen hkeys
    rw [firstOccurrencesAfter_cons, collectByKey]
    by_cases h : byKey.any (fun e => e.1 == dedupKey d) = true
    · have h2 : seen.any (fun e => dedupKey e == dedupKey d) = true := by
        rw [← hkeys]; exact h
      rw [if_pos h, if_pos h2, ih byKey (seen ++ [d])]
      · simp
      · intro k
        rw [List.any_append, ← hkeys k]
        by_cases hk : dedupKey d = k
        · subst hk
          simp [h]
        · simp [hk]
    · have h2 : ¬ seen.any (fun e => dedupKey e == dedupKey d) = true := by
        rw [← hkeys]; exact h
      rw [if_neg h, if_neg h2, ih (byKey ++ [(dedupKey d, d)]) (seen ++ [d])]
      · simp [List.append_assoc]
      · intro k
        rw [List.any_append, List.any_append, hkeys k]
        simp

theorem dedupMics_eq (devices : List MediaDeviceInfo) :
    dedupMics devices = firstOccurrences (audioInputs devices) := by
  unfold dedupMics audioInputs
  rw [firstOccurrences_eq, collectByKey_map _ [] [] (by simp)]
  simp

theorem availableMics_resume (s : State) (devices : List MediaDeviceInfo) :
    (refreshMicrophoneListResume s devices).availableMics = dedupMics devices := by
  unfold refreshMicrophoneListResume
  cases hsel : s.micSelect with
  | none => simp [hsel]
  | some sel =>
    simp only [hsel]
    split <;> rfl

theorem availableMics_pair (s : State) (a b : MediaDeviceInfo)
    (ha : a.kind = "audioinput") (hb : b.kind = "audioinput") :
    (refreshMicrophoneListResume s [a, b]).availableMics
      = if specKey a = specKey b then [a] else [a, b] := by
  rw [availableMics_resume]
  by_cases h : specKey a = specKey b
  · simp [dedupMics, ha, hb, collectByKey, dedupKey_eq, h]
  · simp [dedupMics, ha, hb, collectByKey, dedupKey_eq, h]

/-- C3. When `enumerateDevices()` delivers a list, `refreshMicrophoneList` sets
`availableMics` to the audio-input entries that are the first occurrence of their
dedup key, in enumeration order, where the key is the group id when it is non-empty,
else the normalized label when that is non-empty, else the device id. Of two audio
inputs, those that share a non-empty group id give one entry; those with distinct
non-empty group ids and the same label give two; those without a group id whose labels
have the same non-empty normalized form give one; those without a group id and without
a label give two when their device ids differ. -/
theorem refreshMicrophoneList_keeps_first_occurrences :
    (∀ (s : State) (devices : List MediaDeviceInfo),
      (refreshMicrophoneListResume s devices).availableMics
        = firstOccurrences (audioInputs devices))
    ∧ (∀ (s : State) (a b : MediaDeviceInfo),
        a.kind = "audioinput" → b.kind = "audioinput" →
        a.groupId ≠ "" → a.groupId = b.groupId →
        (refreshMicrophoneListResume s [a, b]).availableMics = [a])
    ∧ (∀ (s : State) (a b : MediaDeviceInfo),
        a.kind = "audioinput" → b.kind = "audioinput" →
        a.groupId ≠ "" → b.groupId ≠ "" → a.groupId ≠ b.groupId → a.label = b.label →
        (refreshMicrophoneListResume s [a, b]).availableMics = [a, b])
    ∧ (∀ (s : State) (a b : MediaDeviceInfo),
        a.kind = "audioinput" → b.kind = "audioinput" →
        a.groupId = "" → b.groupId = "" →
        normalizedLabel a.label ≠ "" → normalizedLabel a.label = normalizedLabel b.label →
        (refreshMicrophoneListResume s [a, b]).availableMics = [a])
    ∧ (∀ (s : State) (a b : MediaDeviceInfo),
        a.kind = "audioinput" → b.kind = "audioinput" →
        a.groupId = "" → b.groupId = "" →
        normalizedLabel a.label = "" → normalizedLabel b.label = "" →
        a.deviceId ≠ b.deviceId →
        (refreshMicrophoneListResume s [a, b]).availableMics = [a, b]) := by
  refine ⟨?_, ?_, ?_, ?_, ?_⟩
  · intro s devices
    rw [availableMics_resume, dedupMics_eq]
  · intro s a b ha hb hga hgab
    have hgb : b.groupId ≠ "" := hgab ▸ hga
    rw [availableMics_pair s a b ha hb]
    simp [specKey, hga, hgb, hgab]
  · intro s a b ha hb hga hgb hne _
    rw [availableMics_pair s a b ha hb]
    simp [specKey, hga, hgb, hne]
  · intro s a b ha hb hga hgb hla hlab
    have hlb : normalizedLabel b.label ≠ "" := hlab ▸ hla
    rw [availableMics_pair s a b ha hb]
    simp [specKey, hga, hgb, hla, hlb, hlab]
  · intro s a b ha hb hga hgb hla hlb hne
    rw [availableMics_pair s a b ha hb]
    simp [specKey, hga, hgb, hla, hlb, hne]

/-- C3, the claim at concrete devices. Two microphones of one hardware group give one
entry; two of different groups with the same label give two; without group ids, two
entries whose labels carry different tags and both normalize to `Headset` give one;
without group ids and with blank labels, two device ids give two. -/
theorem refreshMicrophoneList_keeps_first_occurrences_witness :
    (refreshMicrophoneListResume freshPage
        [⟨"audioinput", "default", "g1", "Standaard - Headset"⟩,
         ⟨"audioinput", "abc", "g1", "Headset"⟩]).availableMics
      = [⟨"audioinput", "default", "g1", "Standaard - Headset"⟩]
    ∧ (refreshMicrophoneListResume freshPage
        [⟨"audioinput", "abc", "g1", "USB Mic"⟩,
         ⟨"audioinput", "def", "g2", "USB Mic"⟩]).availableMics
      = [⟨"audioinput", "abc", "g1", "USB Mic"⟩, ⟨"audioinput", "def", "g2", "USB Mic"⟩]
    ∧ (refreshMicrophoneListResume freshPage
        [⟨"audioinput", "default", "", "standaard  -  Headset "⟩,
         ⟨"audioinput", "abc", "", "Communicatie - Headset"⟩]).availableMics
      = [⟨"audioinput", "default", "", "standaard  -  Headset "⟩]
    ∧ (refreshMicrophoneListResume freshPage
        [⟨"audioinput", "abc", "", ""⟩, ⟨"audioinput", "def", "", " "⟩]).availableMics
      = [⟨"audioinput", "abc", "", ""⟩, ⟨"audioinput", "def", "", " "⟩] :=
  ⟨refreshMicrophoneList_keeps_first_occurrences.2.1 _ _ _ rfl rfl (by decide) rfl,
   refreshMicrophoneList_keeps_first_occurrences.2.2.1 _ _ _ rfl rfl (by decide) (by decide)
     (by decide) rfl,
   refreshMicrophoneList_keeps_first_occurrences.2.2.2.1 _ _ _ rfl rfl rfl rfl (by decide)
     (by decide),
   refreshMicrophoneList_keeps_first_occurrences.2.2.2.2 _ _ _ rfl rfl rfl rfl (by decide)
     (by decide) (by decide)⟩

/-! ## Capture mode without a config message -/

theorem flags_setConnectionStatus (s : State) (c : Bool) :
    (setConnectionStatus s c).serverUseAudioWorklet = s.serverUseAudioWorklet
    ∧ (setConnectionStatus s c).modeLog = s.modeLog := ⟨rfl, rfl⟩

theorem flags_setMicStatus (s : State) (t : String) :
    (setMicStatus s t).serverUseAudioWorklet = s.serverUseAudioWorklet
    ∧ (setMicStatus s t).modeLog = s.modeLog := ⟨rfl, rfl⟩

theorem flags_setModeStatus (s : State) (t : String) :
    (setModeStatus s t).serverUseAudioWorklet = s.serverUseAudioWorklet
    ∧ (setModeStatus s t).modeLog = s.modeLog := ⟨rfl, rfl⟩

theorem flags_setAsrStatus (s : State) (t : String) :
    (setAsrStatus s t).serverUseAudioWorklet = s.serverUseAudioWorklet
    ∧ (setAsrStatus s t).modeLog = s.modeLog := ⟨rfl, rfl⟩

theorem flags_updateRecordButtonUI (s : State) :
    (updateRecordButtonUI s).serverUseAudioWorklet = s.serverUseAudioWorklet
    ∧ (updateRecordButtonUI s).modeLog = s.modeLog := ⟨rfl, rfl⟩

theorem flags_updateHint (s : State) :
    (updateHint s).serverUseAudioWorklet = s.serverUseAudioWorklet
    ∧ (updateHint s).modeLog = s.modeLog := ⟨rfl, rfl⟩

theorem flags_resetTimer (s : State) :
    (resetTimer s).serverUseAudioWorklet = s.serverUseAudioWorklet
    ∧ (resetTimer s).modeLog = s.modeLog := ⟨rfl, rfl⟩

theorem flags_startTimer (s : State) :
    (startTimer s).serverUseAudioWorklet = s.serverUseAudioWorklet
    ∧ (startTimer s).modeLog = s.modeLog := by
  unfold startTimer
  split <;> exact ⟨rfl, rfl⟩

theorem flags_refreshMicrophoneList (p : Platform) (s : State) :
    (refreshMicrophoneList p s).serverUseAudioWorklet = s.serverUseAudioWorklet
    ∧ (refreshMicrophoneList p s).modeLog = s.modeLog := by
  unfold refreshMicrophoneList
  split <;> exact ⟨rfl, rfl⟩

theorem flags_permissionResolved (p : Platform) (s : State) (st : PermissionState) :
    (permissionResolved p s st).serverUseAudioWorklet = s.serverUseAudioWorklet
    ∧ (permissionResolved p s st).modeLog = s.modeLog := by
  unfold permissionResolved
  simp only []
  split
  · simp only [flags_refreshMicrophoneList, flags_setMicStatus, and_self]
  · exact ⟨rfl, rfl⟩

theorem flags_cleanupAudio (s : State) :
    (cleanupAudio s).serverUseAudioWorklet = s.serverUseAudioWorklet
    ∧ (cleanupAudio s).modeLog = s.modeLog := by
  unfold cleanupAudio
  simp only []
  repeat' split
  all_goals exact ⟨rfl, rfl⟩

theorem flags_startRecordingCatch (s : State) (task : Nat) :
    (startRecordingCatch s task).serverUseAudioWorklet = s.serverUseAudioWorklet
    ∧ (startRecordingCatch s task).modeLog = s.modeLog := ⟨rfl, rfl⟩

theorem flags_startRecordingAfterSocket (p : Platform) (s : State) (task : Nat) :
    (startRecordingAfterSocket p s task).serverUseAudioWorklet = s.serverUseAudioWorklet
    ∧ (startRecordingAfterSocket p s task).modeLog = s.modeLog := by
  unfold startRecordingAfterSocket
  split <;> exact ⟨rfl, rfl⟩

theorem flags_resolveConfig (p : Platform) (s : State) (task : Nat) :
    (resolveConfig p s task).serverUseAudioWorklet = s.serverUseAudioWorklet
    ∧ (resolveConfig p s task).modeLog = s.modeLog := by
  unfold resolveConfig
  split
  · exact flags_startRecordingAfterSocket p s task
  · exact ⟨rfl, rfl⟩

theorem flags_startRecordingTail (s : State) (task : Nat) :
    (startRecordingTail s task).serverUseAudioWorklet = s.serverUseAudioWorklet
    ∧ (startRecordingTail s task).modeLog = s.modeLog := by
  unfold startRecordingTail
  simp only [flags_startTimer, flags_updateHint, flags_updateRecordButtonUI,
    flags_setAsrStatus, and_self]

theorem flags_startRecordingAfterModule (s : State) (task : Nat) :
    (startRecordingAfterModule s task).serverUseAudioWorklet = s.serverUseAudioWorklet
    ∧ (startRecordingAfterModule s task).modeLog = s.modeLog := by
  unfold startRecordingAfterModule
  simp only [flags_startRecordingTail, flags_setModeStatus, and_self]

theorem flags_ensureWebSocket (p : Platform) (s : State) (task : Nat) :
    (ensureWebSocket p s task).1.serverUseAudioWorklet = s.serverUseAudioWorklet
    ∧ (ensureWebSocket p s task).1.modeLog = s.modeLog := by
  unfold ensureWebSocket
  split
  · exact ⟨rfl, rfl⟩
  · split <;> exact ⟨rfl, rfl⟩

theorem flags_startRecording (p : Platform) (s : State) :
    (startRecording p s).serverUseAudioWorklet = s.serverUseAudioWorklet
    ∧ (startRecording p s).modeLog = s.modeLog := by
  unfold startRecording
  split
  · exact ⟨rfl, rfl⟩
  · have h1 := flags_ensureWebSocket p { s with tasks := s.tasks ++ [Phase.awaitingSocket] }
      s.tasks.length
    simp only []
    generalize ensureWebSocket p { s with tasks := s.tasks ++ [Phase.awaitingSocket] }
      s.tasks.length = res at h1
    obtain ⟨s2, st⟩ := res
    cases st with
    | resolved =>
      simp only [flags_startRecordingAfterSocket]
      exact h1
    | rejected => exact h1
    | pending => exact h1

theorem flags_stopRecording (s : State) :
    (stopRecording s).serverUseAudioWorklet = s.serverUseAudioWorklet
    ∧ (stopRecording s).modeLog = s.modeLog := by
  unfold stopRecording
  split
  · exact ⟨rfl, rfl⟩
  · simp only []
    split <;>
      simp only [flags_setAsrStatus, flags_updateHint, flags_updateRecordButtonUI,
        flags_resetTimer, flags_cleanupAudio, and_self]

theorem flags_renderTranscript (s : State) (lines : Option (List LineItem))
    (b tr : Option String) (status : String) :
    (renderTranscript s lines b tr status).serverUseAudioWorklet = s.serverUseAudioWorklet
    ∧ (renderTranscript s lines b tr status).modeLog = s.modeLog := by
  unfold renderTranscript
  split
  · exact ⟨rfl, rfl⟩
  · split
    · exact ⟨rfl, rfl⟩
    · simp only [flags_setAsrStatus]
      split
      · split <;> exact ⟨rfl, rfl⟩
      · exact ⟨rfl, rfl⟩

theorem flags_onmessage (p : Platform) (s : State) (msg : ServerMessage)
    (hmsg : ∀ b, msg ≠ ServerMessage.config b) :
    (onmessage p s msg).serverUseAudioWorklet = s.serverUseAudioWorklet
    ∧ (onmessage p s msg).modeLog = s.modeLog := by
  cases msg with
  | nonJson => exact ⟨rfl, rfl⟩
  | config b => exact absurd rfl (hmsg b)
  | ready_to_stop =>
    unfold onmessage
    simp only []
    split <;> exact ⟨rfl, rfl⟩
  | transcript data => exact flags_renderTranscript s _ _ _ _

theorem flags_onopen (s : State) :
    (onopen s).serverUseAudioWorklet = s.serverUseAudioWorklet
    ∧ (onopen s).modeLog = s.modeLog := ⟨rfl, rfl⟩

theorem flags_onerror (p : Platform) (s : State) :
    (onerror p s).serverUseAudioWorklet = s.serverUseAudioWorklet
    ∧ (onerror p s).modeLog = s.modeLog := by
  unfold onerror
  simp only []
  split
  · exact ⟨rfl, rfl⟩
  · simp only [flags_resolveConfig]
    exact ⟨rfl, rfl⟩

theorem flags_onclose (s : State) :
    (onclose s).serverUseAudioWorklet = s.serverUseAudioWorklet
    ∧ (onclose s).modeLog = s.modeLog := by
  unfold onclose
  simp only []
  split <;> exact ⟨rfl, rfl⟩

theorem flags_refreshMicrophoneListResume (s : State) (devices : List MediaDeviceInfo) :
    (refreshMicrophoneListResume s devices).serverUseAudioWorklet = s.serverUseAudioWorklet
    ∧ (refreshMicrophoneListResume s devices).modeLog = s.modeLog := by
  unfold refreshMicrophoneListResume
  simp only []
  split
  · exact ⟨rfl, rfl⟩
  · split <;> exact ⟨rfl, rfl⟩

theorem flags_micSelectChange (s : State) (value : String) :
    (micSelectChange s value).serverUseAudioWorklet = s.serverUseAudioWorklet
    ∧ (micSelectChange s value).modeLog = s.modeLog := by
  unfold micSelectChange
  split
  · exact ⟨rfl, rfl⟩
  · simp only []
    split <;> exact ⟨rfl, rfl⟩

theorem flags_ondataavailable (s : State) (data : Payload) :
    (ondataavailable s data).serverUseAudioWorklet = s.serverUseAudioWorklet
    ∧ (ondataavailable s data).modeLog = s.modeLog := by
  unfold ondataavailable
  split
  · split <;> exact ⟨rfl, rfl⟩
  · exact ⟨rfl, rfl⟩

theorem flags_recorderWorkerOnmessage (s : State) (data : Payload) :
    (recorderWorkerOnmessage s data).serverUseAudioWorklet = s.serverUseAudioWorklet
    ∧ (recorderWorkerOnmessage s data).modeLog = s.modeLog := by
  unfold recorderWorkerOnmessage
  split <;> exact ⟨rfl, rfl⟩

theorem noConfigYet_of_flags (p : Platform) (s t : State)
    (hf : t.serverUseAudioWorklet = s.serverUseAudioWorklet ∧ t.modeLog = s.modeLog)
    (h : NoConfigYet p s) : NoConfigYet p t := by
  unfold NoConfigYet
  rw [hf.1, hf.2]
  exact h

theorem mem_snoc_default (p : Platform) (l : List CaptureMode) (x : CaptureMode)
    (hl : ∀ m ∈ l, m = defaultMode p) (hx : x = defaultMode p) :
    ∀ m ∈ l ++ [x], m = defaultMode p := by
  intro m hm
  rcases List.mem_append.mp hm with hm | hm
  · exact hl m hm
  · rw [List.mem_singleton.mp hm, hx]

theorem startRecordingAfterMic_flags (p : Platform) (s : State) (task : Nat) :
    (startRecordingAfterMic p s task).serverUseAudioWorklet = s.serverUseAudioWorklet
    ∧ (startRecordingAfterMic p s task).modeLog
        = s.modeLog ++ [if (s.serverUseAudioWorklet && p.hasAudioWorklet) = true
            then CaptureMode.audioWorklet else CaptureMode.mediaRecorder] := by
  unfold startRecordingAfterMic
  simp only [flags_refreshMicrophoneList, flags_setMicStatus]
  split
  · rename_i hw
    simp only [flags_refreshMicrophoneList, flags_setMicStatus, if_pos hw, and_self]
  · rename_i hw
    simp only [flags_startRecordingTail, flags_setModeStatus, flags_refreshMicrophoneList,
      flags_setMicStatus, if_neg hw, and_self]

theorem noConfigYet_afterMic (p : Platform) (s : State) (task : Nat) (h : NoConfigYet p s) :
    NoConfigYet p (startRecordingAfterMic p s task) := by
  obtain ⟨h1, h2⟩ := h
  obtain ⟨f1, f2⟩ := startRecordingAfterMic_flags p s task
  unfold NoConfigYet
  rw [f1, f2]
  refine ⟨h1, mem_snoc_default p _ _ h2 ?_⟩
  cases hp : p.hasAudioWorklet <;> simp [defaultMode, h1, hp]

theorem noConfigYet_step (p : Platform) (s : State) (e : Event) (he : e.isConfig = false)
    (h : NoConfigYet p s) : NoConfigYet p (step p s e) := by
  cases e with
  | startRecording => exact noConfigYet_of_flags p s _ (flags_startRecording p s) h
  | stopRecording => exact noConfigYet_of_flags p s _ (flags_stopRecording s) h
  | toggleRecording =>
    simp only [step, toggleRecording]
    split
    · exact noConfigYet_of_flags p s _ (flags_stopRecording s) h
    · exact noConfigYet_of_flags p s _ (flags_startRecording p s) h
  | micSelectChange value =>
    simp only [step]
    split
    · split
      · exact noConfigYet_of_flags p s _ (flags_micSelectChange s value) h
      · exact h
    · exact h
  | onopen ws =>
    simp only [step]
    split
    · exact noConfigYet_of_flags p s _ (flags_onopen _) h
    · exact h
  | onerror ws =>
    simp only [step]
    split
    · exact noConfigYet_of_flags p s _ (flags_onerror p _) h
    · exact h
  | onclose ws =>
    simp only [step]
    split
    · exact noConfigYet_of_flags p s _ (flags_onclose _) h
    · exact h
  | onmessage ws msg =>
    simp only [step]
    split
    · refine noConfigYet_of_flags p s _ (flags_onmessage p s msg ?_) h
      intro b hb
      rw [hb] at he
      simp [Event.isConfig] at he
    · exact h
  | micGranted task =>
    simp only [step]
    split
    · exact noConfigYet_afterMic p s task h
    · exact h
  | micDenied task =>
    simp only [step]
    split
    · exact noConfigYet_of_flags p s _ (flags_startRecordingCatch s task) h
    · exact h
  | moduleLoaded task =>
    simp only [step]
    split
    · exact noConfigYet_of_flags p s _ (flags_startRecordingAfterModule s task) h
    · exact h
  | moduleFailed task =>
    simp only [step]
    split
    · exact noConfigYet_of_flags p s _ (flags_startRecordingCatch s task) h
    · exact h
  | workerMessage worker data =>
    simp only [step]
    split
    · exact noConfigYet_of_flags p s _ (flags_recorderWorkerOnmessage s data) h
    · exact h
  | dataavailable recorder data =>
    simp only [step]
    split
    · exact noConfigYet_of_flags p s _ (flags_ondataavailable s data) h
    · exact noConfigYet_of_flags p s _ (flags_ondataavailable _ data) h
    · exact h
  | devicesEnumerated devices =>
    simp only [step]
    split
    · exact noConfigYet_of_flags p s _ (flags_refreshMicrophoneListResume s devices) h
    · exact h
  | enumerateFailed =>
    simp only [step]
    split
    · exact h
    · exact h
  | permission st =>
    simp only [step]
    split
    · exact noConfigYet_of_flags p s _ (flags_permissionResolved p s st) h
    · exact h
  | permissionQueryFailed =>
    simp only [step]
    split
    · exact noConfigYet_of_flags p s _ (flags_refreshMicrophoneList p s) h
    · exact h

theorem noConfigYet_run (p : Platform) (events : List Event) :
    ∀ s : State, (∀ e ∈ events, e.isConfig = false) → NoConfigYet p s →
      NoConfigYet p (run p s events) := by
  induction events with
  | nil => intro s _ h; exact h
  | cons e rest ih =>
    intro s he h
    have h1 := noConfigYet_step p s e (he e (List.mem_cons_self _ _)) h
    exact ih (step p s e) (fun e' he' => he e' (List.mem_cons_of_mem _ he')) h1

theorem flags_checkMicPermission (p : Platform) (s : State) :
    (checkMicPermission p s).serverUseAudioWorklet = s.serverUseAudioWorklet
    ∧ (checkMicPermission p s).modeLog = s.modeLog := by
  unfold checkMicPermission
  split
  · exact flags_refreshMicrophoneList p s
  · exact ⟨rfl, rfl⟩

theorem noConfigYet_initial (p : Platform) (page : Page) :
    NoConfigYet p (initialState p page) := by
  unfold NoConfigYet initialState
  simp only [flags_setAsrStatus, flags_setConnectionStatus, flags_updateHint,
    flags_updateRecordButtonUI, flags_checkMicPermission]
  exact ⟨trivial, fun m hm => by simp at hm⟩

/-! ## Capture before it starts -/

theorem capture_setConnectionStatus (s : State) (c : Bool) :
    (setConnectionStatus s c).isRecording = s.isRecording
    ∧ (setConnectionStatus s c).waitingForStop = s.waitingForStop
    ∧ (setConnectionStatus s c).recorders = s.recorders
    ∧ (setConnectionStatus s c).workers = s.workers := ⟨rfl, rfl, rfl, rfl⟩

theorem capture_setMicStatus (s : State) (t : String) :
    (setMicStatus s t).isRecording = s.isRecording
    ∧ (setMicStatus s t).waitingForStop = s.waitingForStop
    ∧ (setMicStatus s t).recorders = s.recorders
    ∧ (setMicStatus s t).workers = s.workers := ⟨rfl, rfl, rfl, rfl⟩

theorem capture_setModeStatus (s : State) (t : String) :
    (setModeStatus s t).isRecording = s.isRecording
    ∧ (setModeStatus s t).waitingForStop = s.waitingForStop
    ∧ (setModeStatus s t).recorders = s.recorders
    ∧ (setModeStatus s t).workers = s.workers := ⟨rfl, rfl, rfl, rfl⟩

theorem capture_setAsrStatus (s : State) (t : String) :
    (setAsrStatus s t).isRecording = s.isRecording
    ∧ (setAsrStatus s t).waitingForStop = s.waitingForStop
    ∧ (setAsrStatus s t).recorders = s.recorders
    ∧ (setAsrStatus s t).workers = s.workers := ⟨rfl, rfl, rfl, rfl⟩

theorem capture_updateRecordButtonUI (s : State) :
    (updateRecordButtonUI s).isRecording = s.isRecording
    ∧ (updateRecordButtonUI s).waitingForStop = s.waitingForStop
    ∧ (updateRecordButtonUI s).recorders = s.recorders
    ∧ (updateRecordButtonUI s).workers = s.workers := ⟨rfl, rfl, rfl, rfl⟩

theorem capture_updateHint (s : State) :
    (updateHint s).isRecording = s.isRecording
    ∧ (updateHint s).waitingForStop = s.waitingForStop
    ∧ (updateHint s).recorders = s.recorders
    ∧ (updateHint s).workers = s.workers := ⟨rfl, rfl, rfl, rfl⟩

theorem capture_resetTimer (s : State) :
    (resetTimer s).isRecording = s.isRecording
    ∧ (resetTimer s).waitingForStop = s.waitingForStop
    ∧ (resetTimer s).recorders = s.recorders
    ∧ (resetTimer s).workers = s.workers := ⟨rfl, rfl, rfl, rfl⟩

theorem capture_startTimer (s : State) :
    (startTimer s).isRecording = s.isRecording
    ∧ (startTimer s).waitingForStop = s.waitingForStop
    ∧ (startTimer s).recorders = s.recorders
    ∧ (startTimer s).workers = s.workers := by
  unfold startTimer
  split <;> exact ⟨rfl, rfl, rfl, rfl⟩

theorem capture_refreshMicrophoneList (p : Platform) (s : State) :
    (refreshMicrophoneList p s).isRecording = s.isRecording
    ∧ (refreshMicrophoneList p s).waitingForStop = s.waitingForStop
    ∧ (refreshMicrophoneList p s).recorders = s.recorders
    ∧ (refreshMicrophoneList p s).workers = s.workers := by
  unfold refreshMicrophoneList
  split <;> exact ⟨rfl, rfl, rfl, rfl⟩

theorem capture_permissionResolved (p : Platform) (s : State) (st : PermissionState) :
    (permissionResolved p s st).isRecording = s.isRecording
    ∧ (permissionResolved p s st).waitingForStop = s.waitingForStop
    ∧ (permissionResolved p s st).recorders = s.recorders
    ∧ (permissionResolved p s st).workers = s.workers := by
  unfold permissionResolved
  simp only []
  split
  · simp only [capture_refreshMicrophoneList, capture_setMicStatus, and_self]
  · exact ⟨rfl, rfl, rfl, rfl⟩

theorem capture_startRecordingCatch (s : State) (task : Nat) :
    (startRecordingCatch s task).isRecording = s.isRecording
    ∧ (startRecordingCatch s task).waitingForStop = s.waitingForStop
    ∧ (startRecordingCatch s task).recorders = s.recorders
    ∧ (startRecordingCatch s task).workers = s.workers := ⟨rfl, rfl, rfl, rfl⟩

theorem capture_startRecordingAfterSocket (p : Platform) (s : State) (task : Nat) :
    (startRecordingAfterSocket p s task).isRecording = s.isRecording
    ∧ (startRecordingAfterSocket p s task).waitingForStop = s.waitingForStop
    ∧ (startRecordingAfterSocket p s task).recorders = s.recorders
    ∧ (startRecordingAfterSocket p s task).workers = s.workers := by
  unfold startRecordingAfterSocket
  split <;> exact ⟨rfl, rfl, rfl, rfl⟩

theorem capture_resolveConfig (p : Platform) (s : State) (task : Nat) :
    (resolveConfig p s task).isRecording = s.isRecording
    ∧ (resolveConfig p s task).waitingForStop = s.waitingForStop
    ∧ (resolveConfig p s task).recorders = s.recorders
    ∧ (resolveConfig p s task).workers = s.workers := by
  unfold resolveConfig
  split
  · exact capture_startRecordingAfterSocket p s task
  · exact ⟨rfl, rfl, rfl, rfl⟩

theorem capture_ensureWebSocket (p : Platform) (s : State) (task : Nat) :
    (ensureWebSocket p s task).1.isRecording = s.isRecording
    ∧ (ensureWebSocket p s task).1.waitingForStop = s.waitingForStop
    ∧ (ensureWebSocket p s task).1.recorders = s.recorders
    ∧ (ensureWebSocket p s task).1.workers = s.workers := by
  unfold ensureWebSocket
  split
  · exact ⟨rfl, rfl, rfl, rfl⟩
  · split <;> exact ⟨rfl, rfl, rfl, rfl⟩

theorem capture_startRecording (p : Platform) (s : State) :
    (startRecording p s).isRecording = s.isRecording
    ∧ (startRecording p s).waitingForStop = s.waitingForStop
    ∧ (startRecording p s).recorders = s.recorders
    ∧ (startRecording p s).workers = s.workers := by
  unfold startRecording
  split
  · exact ⟨rfl, rfl, rfl, rfl⟩
  · have h1 := capture_ensureWebSocket p { s with tasks := s.tasks ++ [Phase.awaitingSocket] }
      s.tasks.length
    simp only []
    generalize ensureWebSocket p { s with tasks := s.tasks ++ [Phase.awaitingSocket] }
      s.tasks.length = res at h1
    obtain ⟨s2, st⟩ := res
    cases st with
    | resolved =>
      simp only [capture_startRecordingAfterSocket]
      exact h1
    | rejected => exact h1
    | pending => exact h1

theorem capture_renderTranscript (s : State) (lines : Option (List LineItem))
    (b tr : Option String) (status : String) :
    (renderTranscript s lines b tr status).isRecording = s.isRecording
    ∧ (renderTranscript s lines b tr status).waitingForStop = s.waitingForStop
    ∧ (renderTranscript s lines b tr status).recorders = s.recorders
    ∧ (renderTranscript s lines b tr status).workers = s.workers := by
  unfold renderTranscript
  split
  · exact ⟨rfl, rfl, rfl, rfl⟩
  · split
    · exact ⟨rfl, rfl, rfl, rfl⟩
    · simp only [capture_setAsrStatus]
      split
      · split <;> exact ⟨rfl, rfl, rfl, rfl⟩
      · exact ⟨rfl, rfl, rfl, rfl⟩

theorem capture_onopen (s : State) :
    (onopen s).isRecording = s.isRecording
    ∧ (onopen s).waitingForStop = s.waitingForStop
    ∧ (onopen s).recorders = s.recorders
    ∧ (onopen s).workers = s.workers := ⟨rfl, rfl, rfl, rfl⟩

theorem capture_onerror (p : Platform) (s : State) :
    (onerror p s).isRecording = s.isRecording
    ∧ (onerror p s).waitingForStop = s.waitingForStop
    ∧ (onerror p s).recorders = s.recorders
    ∧ (onerror p s).workers = s.workers := by
  unfold onerror
  simp only []
  split
  · exact ⟨rfl, rfl, rfl, rfl⟩
  · simp only [capture_resolveConfig]
    exact ⟨rfl, rfl, rfl, rfl⟩

theorem capture_refreshMicrophoneListResume (s : State) (devices : List MediaDeviceInfo) :
    (refreshMicrophoneListResume s devices).isRecording = s.isRecording
    ∧ (refreshMicrophoneListResume s devices).waitingForStop = s.waitingForStop
    ∧ (refreshMicrophoneListResume s devices).recorders = s.recorders
    ∧ (refreshMicrophoneListResume s devices).workers = s.workers := by
  unfold refreshMicrophoneListResume
  simp only []
  split
  · exact ⟨rfl, rfl, rfl, rfl⟩
  · split <;> exact ⟨rfl, rfl, rfl, rfl⟩

theorem capture_micSelectChange (s : State) (value : String) :
    (micSelectChange s value).isRecording = s.isRecording
    ∧ (micSelectChange s value).waitingForStop = s.waitingForStop
    ∧ (micSelectChange s value).recorders = s.recorders
    ∧ (micSelectChange s value).workers = s.workers := by
  unfold micSelectChange
  split
  · exact ⟨rfl, rfl, rfl, rfl⟩
  · simp only []
    split <;> exact ⟨rfl, rfl, rfl, rfl⟩

theorem capture_ondataavailable (s : State) (data : Payload) :
    (ondataavailable s data).isRecording = s.isRecording
    ∧ (ondataavailable s data).waitingForStop = s.waitingForStop
    ∧ (ondataavailable s data).recorders = s.recorders
    ∧ (ondataavailable s data).workers = s.workers := by
  unfold ondataavailable
  split
  · split <;> exact ⟨rfl, rfl, rfl, rfl⟩
  · exact ⟨rfl, rfl, rfl, rfl⟩

theorem capture_recorderWorkerOnmessage (s : State) (data : Payload) :
    (recorderWorkerOnmessage s data).isRecording = s.isRecording
    ∧ (recorderWorkerOnmessage s data).waitingForStop = s.waitingForStop
    ∧ (recorderWorkerOnmessage s data).recorders = s.recorders
    ∧ (recorderWorkerOnmessage s data).workers = s.workers := by
  unfold recorderWorkerOnmessage
  split <;> exact ⟨rfl, rfl, rfl, rfl⟩

theorem capture_startRecordingTail (s : State) (task : Nat) :
    (startRecordingTail s task).recorders = s.recorders
    ∧ (startRecordingTail s task).workers = s.workers := by
  unfold startRecordingTail
  simp only [capture_startTimer, capture_updateHint, capture_updateRecordButtonUI,
    capture_setAsrStatus, and_self]

theorem capture_startRecordingAfterModule (s : State) (task : Nat) :
    pipelinesStarted (startRecordingAfterModule s task) = pipelinesStarted s + 1 := by
  unfold startRecordingAfterModule pipelinesStarted
  simp only [capture_startRecordingTail, capture_setModeStatus, List.length_append,
    List.length_singleton]
  omega

theorem capture_startRecordingAfterMic (p : Platform) (s : State) (task : Nat) :
    ((startRecordingAfterMic p s task).isRecording = s.isRecording
      ∧ (startRecordingAfterMic p s task).waitingForStop = s.waitingForStop
      ∧ (startRecordingAfterMic p s task).recorders = s.recorders
      ∧ (startRecordingAfterMic p s task).workers = s.workers)
    ∨ pipelinesStarted (startRecordingAfterMic p s task) = pipelinesStarted s + 1 := by
  unfold startRecordingAfterMic
  simp only []
  split
  · left
    simp only [capture_refreshMicrophoneList, capture_setMicStatus, and_self]
  · right
    unfold pipelinesStarted
    simp only [capture_startRecordingTail, capture_setModeStatus,
      capture_refreshMicrophoneList, capture_setMicStatus, List.length_append,
      List.length_singleton]
    omega

theorem length_stopRecorder (recorders : List RecorderState) (r : Nat) :
    (stopRecorder recorders r).length = recorders.length := by
  unfold stopRecorder
  split
  · exact List.length_set _ _ _
  · rfl

theorem capture_cleanupAudio (s : State) :
    (cleanupAudio s).recorders.length = s.recorders.length
    ∧ (cleanupAudio s).workers.length = s.workers.length := by
  unfold cleanupAudio
  simp only []
  repeat' split
  all_goals simp only [length_stopRecorder, List.length_set, and_self]

theorem capture_stopRecording (s : State) :
    (stopRecording s).recorders.length = s.recorders.length
    ∧ (stopRecording s).workers.length = s.workers.length := by
  unfold stopRecording
  split
  · exact ⟨rfl, rfl⟩
  · simp only []
    split <;>
      simp only [capture_setAsrStatus, capture_updateHint, capture_updateRecordButtonUI,
        capture_resetTimer, capture_cleanupAudio, and_self]

theorem stopRecording_not_recording (s : State) (h : s.isRecording = false) :
    stopRecording s = s := by
  unfold stopRecording
  simp [h]

theorem capture_onclose (s : State) :
    ((onclose s).isRecording = false ∨ (onclose s).isRecording = s.isRecording)
    ∧ (onclose s).waitingForStop = s.waitingForStop
    ∧ (onclose s).recorders = s.recorders
    ∧ (onclose s).workers = s.workers := by
  unfold onclose
  simp only []
  split
  · exact ⟨Or.inl rfl, rfl, rfl, rfl⟩
  · exact ⟨Or.inr rfl, rfl, rfl, rfl⟩

theorem capture_onmessage (p : Platform) (s : State) (msg : ServerMessage) :
    (onmessage p s msg).isRecording = s.isRecording
    ∧ ((onmessage p s msg).waitingForStop = false
        ∨ (onmessage p s msg).waitingForStop = s.waitingForStop)
    ∧ (onmessage p s msg).recorders = s.recorders
    ∧ (onmessage p s msg).workers = s.workers := by
  cases msg with
  | nonJson => exact ⟨rfl, Or.inr rfl, rfl, rfl⟩
  | config b =>
    unfold onmessage
    simp only []
    split
    · exact ⟨rfl, Or.inr rfl, rfl, rfl⟩
    · simp only [capture_resolveConfig]
      exact ⟨rfl, Or.inr rfl, rfl, rfl⟩
  | ready_to_stop =>
    unfold onmessage
    simp only []
    split <;> exact ⟨rfl, Or.inl rfl, rfl, rfl⟩
  | transcript data =>
    have h := capture_renderTranscript s data.lines data.buffer_transcription
      data.buffer_translation (data.status.getD "active_transcription")
    exact ⟨h.1, Or.inr h.2.1, h.2.2.1, h.2.2.2⟩

theorem calm_step (s t : State)
    (h : (t.isRecording = false ∨ t.isRecording = s.isRecording)
      ∧ (t.waitingForStop = false ∨ t.waitingForStop = s.waitingForStop)
      ∧ t.recorders.length = s.recorders.length
      ∧ t.workers.length = s.workers.length) :
    pipelinesStarted s ≤ pipelinesStarted t
    ∧ (Idle s → pipelinesStarted t = pipelinesStarted s → Idle t) := by
  obtain ⟨h1, h2, h3, h4⟩ := h
  refine ⟨by unfold pipelinesStarted; omega, ?_⟩
  intro hidle _
  obtain ⟨i1, i2⟩ := hidle
  refine ⟨?_, ?_⟩
  · rcases h1 with h1 | h1
    · exact h1
    · rw [h1, i1]
  · rcases h2 with h2 | h2
    · exact h2
    · rw [h2, i2]

theorem quiet_step (s t : State)
    (h : t.isRecording = s.isRecording ∧ t.waitingForStop = s.waitingForStop
      ∧ t.recorders = s.recorders ∧ t.workers = s.workers) :
    pipelinesStarted s ≤ pipelinesStarted t
    ∧ (Idle s → pipelinesStarted t = pipelinesStarted s → Idle t) :=
  calm_step s t ⟨Or.inr h.1, Or.inr h.2.1, by rw [h.2.2.1], by rw [h.2.2.2]⟩

theorem grow_step (s t : State) (h : pipelinesStarted t = pipelinesStarted s + 1) :
    pipelinesStarted s ≤ pipelinesStarted t
    ∧ (Idle s → pipelinesStarted t = pipelinesStarted s → Idle t) := by
  refine ⟨by omega, ?_⟩
  intro _ h2
  omega

theorem refl_step (s : State) :
    pipelinesStarted s ≤ pipelinesStarted s
    ∧ (Idle s → pipelinesStarted s = pipelinesStarted s → Idle s) :=
  ⟨Nat.le_refl _, fun h _ => h⟩

theorem stop_step (s : State) :
    pipelinesStarted s ≤ pipelinesStarted (stopRecording s)
    ∧ (Idle s → pipelinesStarted (stopRecording s) = pipelinesStarted s
        → Idle (stopRecording s)) := by
  have h := capture_stopRecording s
  refine ⟨by unfold pipelinesStarted; omega, ?_⟩
  intro hidle _
  rw [stopRecording_not_recording s hidle.1]
  exact hidle

theorem capture_step (p : Platform) (s : State) (e : Event) :
    pipelinesStarted s ≤ pipelinesStarted (step p s e)
    ∧ (Idle s → pipelinesStarted (step p s e) = pipelinesStarted s → Idle (step p s e)) := by
  cases e with
  | startRecording => exact quiet_step s _ (capture_startRecording p s)
  | stopRecording => exact stop_step s
  | toggleRecording =>
    simp only [step, toggleRecording]
    split
    · exact stop_step s
    · exact quiet_step s _ (capture_startRecording p s)
  | micSelectChange value =>
    simp only [step]
    split
    · split
      · exact quiet_step s _ (capture_micSelectChange s value)
      · exact refl_step s
    · exact refl_step s
  | onopen ws =>
    simp only [step]
    split
    · exact quiet_step s _ (capture_onopen _)
    · exact refl_step s
  | onerror ws =>
    simp only [step]
    split
    · exact quiet_step s _ (capture_onerror p _)
    · exact refl_step s
  | onclose ws =>
    simp only [step]
    split
    · have h := capture_onclose { s with sockets := s.sockets.set ws ReadyState.CLOSED }
      exact calm_step s _ ⟨h.1, Or.inr h.2.1, by rw [h.2.2.1], by rw [h.2.2.2]⟩
    · exact refl_step s
  | onmessage ws msg =>
    simp only [step]
    split
    · have h := capture_onmessage p s msg
      exact calm_step s _ ⟨Or.inr h.1, h.2.1, by rw [h.2.2.1], by rw [h.2.2.2]⟩
    · exact refl_step s
  | micGranted task =>
    simp only [step]
    split
    · rcases capture_startRecordingAfterMic p s task with h | h
      · exact quiet_step s _ h
      · exact grow_step s _ h
    · exact refl_step s
  | micDenied task =>
    simp only [step]
    split
    · exact quiet_step s _ (capture_startRecordingCatch s task)
    · exact refl_step s
  | moduleLoaded task =>
    simp only [step]
    split
    · exact grow_step s _ (capture_startRecordingAfterModule s task)
    · exact refl_step s
  | moduleFailed task =>
    simp only [step]
    split
    · exact quiet_step s _ (capture_startRecordingCatch s task)
    · exact refl_step s
  | workerMessage worker data =>
    simp only [step]
    split
    · exact quiet_step s _ (capture_recorderWorkerOnmessage s data)
    · exact refl_step s
  | dataavailable recorder data =>
    simp only [step]
    split
    · exact quiet_step s _ (capture_ondataavailable s data)
    · have h := capture_ondataavailable
        { s with recorders := s.recorders.set recorder RecorderState.inactive } data
      exact calm_step s _ ⟨Or.inr h.1, Or.inr h.2.1,
        by rw [h.2.2.1]; exact List.length_set _ _ _, by rw [h.2.2.2]⟩
    · exact refl_step s
  | devicesEnumerated devices =>
    simp only [step]
    split
    · exact quiet_step s _ (capture_refreshMicrophoneListResume s devices)
    · exact refl_step s
  | enumerateFailed =>
    simp only [step]
    split
    · exact quiet_step s _ ⟨rfl, rfl, rfl, rfl⟩
    · exact refl_step s
  | permission st =>
    simp only [step]
    split
    · exact quiet_step s _ (capture_permissionResolved p s st)
    · exact refl_step s
  | permissionQueryFailed =>
    simp only [step]
    split
    · exact quiet_step s _ (capture_refreshMicrophoneList p s)
    · exact refl_step s

theorem pipelinesStarted_run (p : Platform) (events : List Event) :
    ∀ s : State, pipelinesStarted s ≤ pipelinesStarted (run p s events) := by
  induction events with
  | nil => intro s; exact Nat.le_refl _
  | cons e rest ih =>
    intro s
    exact Nat.le_trans (capture_step p s e).1 (ih (step p s e))

theorem idle_run (p : Platform) (events : List Event) :
    ∀ s : State, Idle s → pipelinesStarted (run p s events) = pipelinesStarted s →
      Idle (run p s events) := by
  induction events with
  | nil => intro s h _; exact h
  | cons e rest ih =>
    intro s hidle hn
    have h1 := (capture_step p s e).1
    have h2 := pipelinesStarted_run p rest (step p s e)
    have h3 : pipelinesStarted (run p (step p s e) rest) = pipelinesStarted s := hn
    have h4 : pipelinesStarted (step p s e) = pipelinesStarted s := by omega
    exact ih (step p s e) ((capture_step p s e).2 hidle h4) (by rw [h3, h4])

/-! ## Session handling: the claims -/

/-- C2, the failing run. Capture runs in the recorder variant with the socket open; the
recorder delivers a chunk, `stopRecording` is called, and the recorder then delivers
the chunk that `MediaRecorder.stop()` queues. The socket is sent the first chunk, the
empty end-of-audio blob, and then the last chunk: the marker is not the last item. -/
theorem chunk_sent_after_end_marker :
    (run plainBrowser recordingState
        [Event.dataavailable 0 [1, 2], Event.stopRecording, Event.dataavailable 0 [3]]).sent
      = [(0, [1, 2]), (0, emptyBlob), (0, [3])] := by
  decide

/-- C4, as amended. As long as no `config` message has been handled, every capture
variant `startRecording` selects is the worklet variant when the browser has the
worklet front-end and the recorder variant when it has not. -/
theorem capture_mode_without_config (p : Platform) (page : Page) (events : List Event)
    (hno : ∀ e ∈ events, e.isConfig = false) :
    ∀ m ∈ (run p (initialState p page) events).modeLog,
      m = if p.hasAudioWorklet then CaptureMode.audioWorklet else CaptureMode.mediaRecorder :=
  (noConfigYet_run p events (initialState p page) hno (noConfigYet_initial p page)).2

/-- C4, the amended claim at a run without `config` in a browser that lacks the worklet
front-end: one variant is selected and it is the recorder variant. -/
theorem capture_mode_without_config_witness :
    (run plainBrowser freshPage
        [Event.startRecording, Event.onerror 0, Event.onclose 0, Event.micGranted 0]).modeLog
      = [CaptureMode.mediaRecorder]
    ∧ ∀ m ∈ (run plainBrowser freshPage
        [Event.startRecording, Event.onerror 0, Event.onclose 0, Event.micGranted 0]).modeLog,
      m = if plainBrowser.hasAudioWorklet then CaptureMode.audioWorklet
          else CaptureMode.mediaRecorder :=
  ⟨by decide,
   capture_mode_without_config plainBrowser fullPage
    [Event.startRecording, Event.onerror 0, Event.onclose 0, Event.micGranted 0] (by decide)⟩

/-- C4, counterexample to the claim as worded. No event of the run is a `config`
message; the connection errors, which resolves the pending promise, and in a browser
with the worklet front-end `startRecording` selects and starts the worklet variant. -/
theorem worklet_selected_without_config :
    (∀ e ∈ errorBeforeConfigEvents, e.isConfig = false)
    ∧ (run workletBrowser freshWorkletPage errorBeforeConfigEvents).modeLog
        = [CaptureMode.audioWorklet]
    ∧ (run workletBrowser freshWorkletPage errorBeforeConfigEvents).workers = [true]
    ∧ (run workletBrowser freshWorkletPage errorBeforeConfigEvents).recorders = []
    ∧ (run workletBrowser freshWorkletPage errorBeforeConfigEvents).isRecording
        = true := by
  decide

/-- C5, the failing run. `startRecording` is invoked, and invoked again while the first
invocation awaits the microphone, with no `stopRecording` between them: the guard
`if (isRecording) return` lets the second call through because `isRecording` is set
only after the awaits. The microphone is requested and obtained twice and two
recorders are started. A `stopRecording` afterwards reaches only the second pair:
recorder 0 keeps recording and stream 0 stays live, with no variable referring to
them. -/
theorem startRecording_twice_starts_two_pipelines :
    doubleStartEvents.count Event.startRecording = 2
    ∧ Event.stopRecording ∉ doubleStartEvents
    ∧ (run plainBrowser freshPage doubleStartEvents).micRequests = [none, none]
    ∧ (run plainBrowser freshPage doubleStartEvents).streams = [true, true]
    ∧ (run plainBrowser freshPage doubleStartEvents).recorders
        = [RecorderState.recording, RecorderState.recording]
    ∧ (stopRecording (run plainBrowser freshPage doubleStartEvents)).recorders
        = [RecorderState.recording, RecorderState.flushing]
    ∧ (stopRecording (run plainBrowser freshPage doubleStartEvents)).streams
        = [true, false]
    ∧ (stopRecording (run plainBrowser freshPage doubleStartEvents)).mediaRecorder = none
    ∧ (stopRecording (run plainBrowser freshPage doubleStartEvents)).mediaStream
        = none := by
  decide

/-- C6, the failing runs. The connection closes while capture runs: afterwards
`isRecording` is false and `websocket` is null, yet the microphone stream is still held
and live and the recorder still records; in the worklet variant the worker and the
worklet node are still held and alive. The connection closes after `stopRecording`,
before `ready_to_stop`: `waitingForStop` is still true. -/
theorem onclose_releases_nothing :
    recordingState.isRecording = true
    ∧ (step plainBrowser recordingState (Event.onclose 0)).isRecording = false
    ∧ (step plainBrowser recordingState (Event.onclose 0)).websocket = none
    ∧ (step plainBrowser recordingState (Event.onclose 0)).mediaStream = some 0
    ∧ (step plainBrowser recordingState (Event.onclose 0)).streams = [true]
    ∧ (step plainBrowser recordingState (Event.onclose 0)).mediaRecorder = some 0
    ∧ (step plainBrowser recordingState (Event.onclose 0)).recorders
        = [RecorderState.recording]
    ∧ (step workletBrowser workletRecordingState (Event.onclose 0)).recorderWorker = some 0
    ∧ (step workletBrowser workletRecordingState (Event.onclose 0)).workers = [true]
    ∧ (step workletBrowser workletRecordingState (Event.onclose 0)).workletNode = some 0
    ∧ (step workletBrowser workletRecordingState (Event.onclose 0)).workletNodes = [true]
    ∧ stoppingState.waitingForStop = true
    ∧ (step plainBrowser stoppingState (Event.onclose 0)).isRecording = false
    ∧ (step plainBrowser stoppingState (Event.onclose 0)).waitingForStop = true := by
  decide

/-- C7, the failing runs. A second `startRecording` while the first socket is still
connecting constructs a second socket and overwrites `configResolve`. When both sockets
then open and deliver `config`, only the second invocation goes on; when both sockets
fail instead, the error handler resolves the second invocation's promise only. In both
runs the first invocation still awaits its promise at the end, and no later event can
resolve it, although the error handler resolves the pending promise, in the words of
its comment, so as not to stay hanging. With the socket open and no `config` received
yet, the promise of a further `ensureWebSocket` is resolved at once instead of on the
`config` event. -/
theorem second_call_opens_second_socket :
    connectingState.sockets = [ReadyState.CONNECTING]
    ∧ connectingState.configResolve = some 0
    ∧ (step plainBrowser connectingState Event.startRecording).sockets
        = [ReadyState.CONNECTING, ReadyState.CONNECTING]
    ∧ (step plainBrowser connectingState Event.startRecording).configResolve = some 1
    ∧ (run plainBrowser freshPage doubleConnectEvents).tasks
        = [Phase.awaitingSocket, Phase.awaitingMic]
    ∧ (run plainBrowser freshPage doubleConnectEvents).configResolve = none
    ∧ (run plainBrowser freshPage doubleConnectErrorEvents).tasks
        = [Phase.awaitingSocket, Phase.awaitingMic]
    ∧ (run plainBrowser freshPage doubleConnectErrorEvents).configResolve = none
    ∧ (run plainBrowser freshPage doubleConnectErrorEvents).sockets
        = [ReadyState.CLOSED, ReadyState.CLOSED]
    ∧ awaitingConfigState.tasks = [Phase.awaitingSocket]
    ∧ (ensureWebSocket plainBrowser awaitingConfigState 1).2 = Settled.resolved := by
  decide

/-- C8, as amended. In every state in which `isRecording` is false, the state that still
awaits `config` included, `stopRecording` sends no end-of-audio marker and changes no
variable: the session is not capturing afterwards and awaits a stop acknowledgment
afterwards exactly when it did before. In every state reached from an idle one by
events that start no capture pipeline, `isRecording` is false, so that there the
session is idle when `stopRecording` returns. -/
theorem stopRecording_without_capture :
    (∀ s : State, s.isRecording = false →
      stopRecording s = s
      ∧ (stopRecording s).sent = s.sent
      ∧ (stopRecording s).isRecording = false
      ∧ (stopRecording s).waitingForStop = s.waitingForStop)
    ∧ (∀ (p : Platform) (s0 : State) (events : List Event), Idle s0 →
      pipelinesStarted (run p s0 events) = pipelinesStarted s0 →
      (run p s0 events).isRecording = false
      ∧ (stopRecording (run p s0 events)).sent = (run p s0 events).sent
      ∧ Idle (stopRecording (run p s0 events))) := by
  refine ⟨?_, ?_⟩
  · intro s h
    rw [stopRecording_not_recording s h]
    exact ⟨rfl, rfl, h, rfl⟩
  · intro p s0 events hidle hnone
    have hi := idle_run p events s0 hidle hnone
    rw [stopRecording_not_recording _ hi.1]
    exact ⟨hi.1, rfl, hi⟩

/-- C8, the amended claim at the state that still awaits `config`: the user has started,
the socket has opened, no `config` has come. Nothing has been sent, `stopRecording`
changes nothing and the session is idle when it returns. -/
theorem stopRecording_without_capture_witness :
    awaitingConfigState.tasks = [Phase.awaitingSocket]
    ∧ awaitingConfigState.sent = []
    ∧ (stopRecording awaitingConfigState = awaitingConfigState
      ∧ (stopRecording awaitingConfigState).sent = awaitingConfigState.sent
      ∧ (stopRecording awaitingConfigState).isRecording = false
      ∧ (stopRecording awaitingConfigState).waitingForStop
          = awaitingConfigState.waitingForStop)
    ∧ ((run plainBrowser freshPage [Event.startRecording, Event.onopen 0]).isRecording
          = false
      ∧ (stopRecording (run plainBrowser freshPage
            [Event.startRecording, Event.onopen 0])).sent
          = (run plainBrowser freshPage [Event.startRecording, Event.onopen 0]).sent
      ∧ Idle (stopRecording (run plainBrowser freshPage
            [Event.startRecording, Event.onopen 0]))) :=
  ⟨by decide, by decide,
   stopRecording_without_capture.1 awaitingConfigState (by decide),
   stopRecording_without_capture.2 plainBrowser freshPage
    [Event.startRecording, Event.onopen 0] ⟨by decide, by decide⟩ (by decide)⟩

/-- C8, counterexample to the claim as worded. After a capture has been stopped and
before `ready_to_stop` arrives, `isRecording` is false; `stopRecording` called then
sends nothing and leaves `waitingForStop` true, so the session still awaits the
acknowledgment and is not idle. -/
theorem stopRecording_keeps_awaiting_ack :
    stoppingState.isRecording = false
    ∧ stoppingState.waitingForStop = true
    ∧ (stopRecording stoppingState).sent = stoppingState.sent
    ∧ (stopRecording stoppingState).isRecording = false
    ∧ (stopRecording stoppingState).waitingForStop = true := by
  decide

end WebTrivias
